import Mathlib

/-!
Verification development for the `headless-autocomplete` combobox state
machine (`src/combobox.ts`).  The TypeScript source is translated into a
shallow Lean embedding: the `Model` record, the `Msg`/`Effect` unions, the
`update` pipeline (skip-once suppression, phase transition table, setter
overlay, effect computation, suppression scheduling) and the selector layer.
Items are an opaque type `T`; item identities live in a type `ι` with
decidable equality (the source uses `string | number` ids compared with
`===`).  JS `number` indices are embedded as `Int` (they can be `-1`).
-/

namespace Combobox

/-- Direction of the selected-item chip list in multi-select mode. -/
inductive SelectedItemListDirection : Type
  | leftToRight
  | rightToLeft
deriving DecidableEq, Repr

/-- The `SelectMode` union from the source. -/
inductive SelectMode : Type
  | singleSelect
  | multiSelect (selectedItemListDirection : SelectedItemListDirection)
deriving DecidableEq, Repr

/-- The `InputMode` union from the source. -/
inductive InputMode : Type
  | selectOnly
  | searchMode (inputValue : String)
deriving DecidableEq, Repr

/-- The five phase tags (`ModelState` in the source), with their
phase-specific payloads (`highlightIndex`, `focusedIndex`). -/
inductive ModelState : Type
  | blurred
  | focusedClosed
  | focusedOpened
  | focusedOpenedHighlighted (highlightIndex : Int)
  | selectedItemHighlighted (focusedIndex : Int)
deriving DecidableEq, Repr

/-- Event-type tags, i.e. the values of `Msg["type"]` in the source
(used by the `skipOnce` list). -/
inductive MsgType : Type
  | pressedHorizontalArrowKey
  | pressedVerticalArrowKey
  | pressedBackspaceKey
  | pressedEscapeKey
  | pressedEnterKey
  | pressedKey
  | pressedItem
  | focusedInput
  | blurredInput
  | inputtedValue
  | hoveredOverItem
  | pressedInput
  | pressedUnselectAllButton
  | pressedUnselectButton
  | focusedSelectedItem
  | blurredSelectedItem
  | setAllItems
  | setSelectedItems
  | setInputValue
  | setHighlightIndex
  | setMode
deriving DecidableEq, Repr

/-- The `Model<TItem>` record from the source: the phase (`ModelState`,
flattened in TS via intersection, a separate field here) plus the shared
fields. -/
structure Model (T : Type) : Type where
  state : ModelState
  allItems : List T
  selectedItems : List T
  skipOnce : List MsgType
  selectMode : SelectMode
  inputMode : InputMode
deriving DecidableEq, Repr

/-- The `Msg<TItem>` union from the source. -/
inductive Msg (T : Type) : Type
  | pressedHorizontalArrowKey (key : Bool)   -- `true` = arrow-right, `false` = arrow-left
  | pressedVerticalArrowKey (key : Bool)     -- `true` = arrow-down, `false` = arrow-up
  | pressedBackspaceKey
  | pressedEscapeKey
  | pressedEnterKey
  | pressedKey (key : String)
  | pressedItem (item : T)
  | focusedInput
  | blurredInput
  | inputtedValue (inputValue : String)
  | hoveredOverItem (index : Int)
  | pressedInput
  | pressedUnselectAllButton
  | pressedUnselectButton (item : T)
  | focusedSelectedItem (item : T)
  | blurredSelectedItem (item : T)
  | setAllItems (allItems : List T)
  | setSelectedItems (selectedItems : List T)
  | setInputValue (inputValue : String)
  | setHighlightIndex (highlightIndex : Int)
  | setMode (mode : SelectMode)
deriving DecidableEq, Repr

/-- The `type` tag of a message. -/
def Msg.type {T : Type} : Msg T → MsgType
  | .pressedHorizontalArrowKey _ => .pressedHorizontalArrowKey
  | .pressedVerticalArrowKey _ => .pressedVerticalArrowKey
  | .pressedBackspaceKey => .pressedBackspaceKey
  | .pressedEscapeKey => .pressedEscapeKey
  | .pressedEnterKey => .pressedEnterKey
  | .pressedKey _ => .pressedKey
  | .pressedItem _ => .pressedItem
  | .focusedInput => .focusedInput
  | .blurredInput => .blurredInput
  | .inputtedValue _ => .inputtedValue
  | .hoveredOverItem _ => .hoveredOverItem
  | .pressedInput => .pressedInput
  | .pressedUnselectAllButton => .pressedUnselectAllButton
  | .pressedUnselectButton _ => .pressedUnselectButton
  | .focusedSelectedItem _ => .focusedSelectedItem
  | .blurredSelectedItem _ => .blurredSelectedItem
  | .setAllItems _ => .setAllItems
  | .setSelectedItems _ => .setSelectedItems
  | .setInputValue _ => .setInputValue
  | .setHighlightIndex _ => .setHighlightIndex
  | .setMode _ => .setMode

/-- The `Effect<TItem>` union from the source. -/
inductive Effect (T : Type) : Type
  | scrollItemIntoView (item : T)
  | focusSelectedItem (item : T)
  | focusInput
deriving DecidableEq, Repr

/-- The `Config<TItem>` record from the source.  `namespace` (a Lean
keyword) is rendered as `nspace`; it has no effect on state transitions. -/
structure Config (ι T : Type) : Type where
  toItemId : T → ι
  toItemInputValue : T → String
  deterministicFilter : Model T → List T
  isEmptyItem : T → Bool
  nspace : String

/-! Helpers imported by `combobox.ts` from `utils.ts` and `non-empty.ts`,
which are files of this repository not present under `src/`; they are
modelled from the spec. -/

/-- Modelled from the spec: `isNonEmpty` from the repository's
`non-empty.ts` (not under `src/`): whether a list is non-empty
("`selectedItems` is non-empty iff the phase predicate `isSelected`
holds"). -/
def isNonEmpty {α : Type} : List α → Bool
  | [] => false
  | _ :: _ => true

/-- Modelled from the spec: `removeFirst` from the repository's `utils.ts`
(not under `src/`): removes the first element satisfying the predicate
(`skipOnce` entries are "consumed one match at a time"). -/
def removeFirst {α : Type} (p : α → Bool) : List α → List α
  | [] => []
  | x :: xs => if p x then xs else x :: removeFirst p xs

/-- Modelled from the spec: `circularIndex` from the repository's
`utils.ts` (not under `src/`): circular wraparound `((i % n) + n) % n`
with JS truncated remainder, "guarding length 0 → index 0". -/
def circularIndex (i : Int) (n : Nat) : Int :=
  if n = 0 then 0 else (Int.tmod i n + n).tmod n

/-- Modelled from the spec: `clampIndex` from the repository's `utils.ts`
(not under `src/`): clamp an index (not wrapped) into `[0, n-1]`, with the
same guard for length 0 as `circularIndex`. -/
def clampIndex (i : Int) (n : Nat) : Int :=
  if n = 0 then 0 else max 0 (min i ((n : Int) - 1))

/-! JS-array idioms used by the source, with JS `number` indices as `Int`. -/

/-- JS `list[i]`: `some` element for an in-range index, `none`
(`undefined`) otherwise. -/
def jsGetElem {α : Type} (l : List α) (i : Int) : Option α :=
  if i < 0 then none else l[i.toNat]?

/-- JS `Array.prototype.findIndex`: index of the first match, `-1` when
there is none. -/
def jsFindIndex {α : Type} (p : α → Bool) (l : List α) : Int :=
  match l.findIdx? p with
  | some k => (k : Int)
  | none => -1

/-- JS truthiness conditional `x ? x : 0` applied to a `number | null`
value: `0` and `null` are falsy, so both map to `0`. -/
def jsOrZero (x : Option Int) : Int :=
  match x with
  | none => 0
  | some i => if i = 0 then 0 else i

/-- JS `list.filter((_, index) => index !== k)`. -/
def filterIndexNe {α : Type} (l : List α) (k : Int) : List α :=
  (l.enum.filter (fun p => decide ((p.1 : Int) ≠ k))).map Prod.snd

/-! Phase predicates (the `is*` selectors of the source). -/

/-- Selector `isOpened`. -/
def isOpened : ModelState → Bool
  | .focusedOpened => true
  | .focusedOpenedHighlighted _ => true
  | _ => false

/-- Selector `isClosed`. -/
def isClosed (s : ModelState) : Bool := !isOpened s

/-- Selector `isHighlighted`. -/
def isHighlighted : ModelState → Bool
  | .focusedOpenedHighlighted _ => true
  | _ => false

/-- Selector `isBlurred`. -/
def isBlurred : ModelState → Bool
  | .blurred => true
  | _ => false

/-- Selector `isFocused`. -/
def isFocused (s : ModelState) : Bool := !isBlurred s

/-- Selector `isSelectedItemHighlighted`. -/
def isSelectedItemHighlighted : ModelState → Bool
  | .selectedItemHighlighted _ => true
  | _ => false

/-- Selector `isSelected`: some item is selected. -/
def isSelected {T : Type} (m : Model T) : Bool := isNonEmpty m.selectedItems

/-- The `.type === "single-select"` tag check. -/
def isSingle : SelectMode → Bool
  | .singleSelect => true
  | .multiSelect _ => false

/-- The `.type === "multi-select"` tag check. -/
def isMulti : SelectMode → Bool
  | .singleSelect => false
  | .multiSelect _ => true

/-! Input-value plumbing. -/

/-- Source `toSearchValue`: the live input text in search mode, `""` in
select-only mode. -/
def toSearchValue {T : Type} (m : Model T) : String :=
  match m.inputMode with
  | .searchMode v => v
  | .selectOnly => ""

/-- Source `setInputValue`: store the text when in search mode, no-op in
select-only mode. -/
def setInputValue {T : Type} (m : Model T) (inputValue : String) : Model T :=
  match m.inputMode with
  | .searchMode _ => { m with inputMode := .searchMode inputValue }
  | .selectOnly => m

/-- Source `clearInputValue`. -/
def clearInputValue {T : Type} (m : Model T) : Model T :=
  setInputValue m ""

/-- Source `toVisibleItems`: unfiltered in select-only mode, the injected
deterministic filter otherwise. -/
def toVisibleItems {ι T : Type} (config : Config ι T) (m : Model T) : List T :=
  match m.inputMode with
  | .selectOnly => m.allItems
  | .searchMode _ => config.deterministicFilter m

/-- Source `isItemSelected`: membership of `selectedItems` by id. -/
def isItemSelected {ι T : Type} [DecidableEq ι] (config : Config ι T)
    (m : Model T) (item : T) : Bool :=
  m.selectedItems.any (fun x => decide (config.toItemId x = config.toItemId item))

/-- Source `modelToInputValue`: the canonical display projection. -/
def modelToInputValue {ι T : Type} (config : Config ι T) (m : Model T) : String :=
  if m.inputMode = .selectOnly ∧ isMulti m.selectMode then ""
  else if m.inputMode = .selectOnly then
    let emptyItem := m.allItems.find? (fun item => config.isEmptyItem item)
    if isSelected m then
      match m.selectedItems with
      | x :: _ => config.toItemInputValue x
      | [] => ""
    else
      match m.state with
      | .focusedOpenedHighlighted hi =>
          match jsGetElem m.allItems hi with
          | none => match emptyItem with
                    | some e => config.toItemInputValue e
                    | none => ""
          | some item => config.toItemInputValue item
      | _ => match emptyItem with
             | some e => config.toItemInputValue e
             | none => ""
  else if isSelected m ∧ isSingle m.selectMode then
    match m.selectedItems with
    | x :: _ => config.toItemInputValue x
    | [] => ""
  else ""

/-- Source `resetInputValue`. -/
def resetInputValue {ι T : Type} (config : Config ι T) (m : Model T) : Model T :=
  setInputValue m (modelToInputValue config m)

/-- Source `toCurrentInputValue`: the text the input element should show. -/
def toCurrentInputValue {ι T : Type} (config : Config ι T) (m : Model T) : String :=
  match m.inputMode with
  | .selectOnly => modelToInputValue config m
  | .searchMode _ =>
      if m.state = .blurred then modelToInputValue config m else toSearchValue m

/-- Source `toSelectedItem`: the first selected item, or `null`. -/
def toSelectedItem {T : Type} (m : Model T) : Option T :=
  match m.selectedItems with
  | x :: _ => some x
  | [] => none

/-- Source `toSelectedItemIndex`: position of the current selection in the
visible-items projection (`null` when `findIndex` returns `-1`). -/
def toSelectedItemIndex {ι T : Type} [DecidableEq ι] (config : Config ι T)
    (m : Model T) : Option Int :=
  let selectedIndex := jsFindIndex
    (fun item => m.selectedItems.any
      (fun x => decide (config.toItemId item = config.toItemId x)))
    (toVisibleItems config m)
  if selectedIndex = -1 then none else some selectedIndex

/-- Source `addSelected`: single-select replaces the selection, multi-select
appends (the `isNonEmpty` refinement in the source does not change the
value). -/
def addSelected {T : Type} (mode : SelectMode) (item : T)
    (selectedItems : List T) : List T :=
  match mode with
  | .singleSelect => [item]
  | .multiSelect _ => selectedItems ++ [item]

/-- Source `toggleSelected` (note the early return when nothing is
selected). -/
def toggleSelected {ι T : Type} [DecidableEq ι] (config : Config ι T)
    (m : Model T) (item : T) : Model T :=
  if ¬ isSelected m then m
  else if isSingle m.selectMode then
    let modelNew : Model T :=
      { m with state := .focusedClosed
               selectedItems := addSelected m.selectMode item m.selectedItems }
    setInputValue modelNew (modelToInputValue config modelNew)
  else if ¬ isItemSelected config m item then
    let modelNew : Model T :=
      { m with state := .focusedClosed
               selectedItems := addSelected m.selectMode item m.selectedItems }
    setInputValue modelNew (modelToInputValue config modelNew)
  else
    let removed := m.selectedItems.filter
      (fun x => decide (config.toItemId x ≠ config.toItemId item))
    if isNonEmpty removed then
      setInputValue { m with state := .focusedClosed, selectedItems := removed }
        (modelToInputValue config m)
    else
      setInputValue { m with state := .focusedClosed }
        (modelToInputValue config m)

/-- Source `updateKeyboardNavigationForSelections`.  It is only invoked on
`pressed-horizontal-arrow-key`, so the message is passed as its key
(`true` = arrow-right); the source's `msg.type` guard is satisfied at every
call site.  The source's `"inputValue" in model` guard is dead code (the
`Model` object has no top-level `inputValue` property, only
`inputMode.inputValue`), so it is omitted. -/
def updateKeyboardNavigationForSelections {T : Type} (m : Model T)
    (key : Bool) : Model T :=
  if ¬ isSelected m then m
  else
    match m.selectMode with
    | .singleSelect => m
    | .multiSelect dir =>
      if dir = .rightToLeft ∧ key = false then
        { m with state := .selectedItemHighlighted 0 }
      else if dir = .leftToRight ∧ key = true then
        { m with state := .selectedItemHighlighted 0 }
      else m

/-- The `blurred` arm of the source's `updateModel` switch. -/
def updateBlurred {ι T : Type} [DecidableEq ι] (config : Config ι T)
    (m : Model T) (msg : Msg T) : Model T :=
  match msg with
  | .focusedInput =>
      resetInputValue config { m with state := .focusedOpened }
  | .pressedUnselectAllButton =>
      { m with state := .blurred }
  | .pressedUnselectButton item =>
      let removed := m.selectedItems.filter
        (fun x => decide (config.toItemId x ≠ config.toItemId item))
      if isNonEmpty removed then { m with selectedItems := removed }
      else { m with state := .blurred }
  | .focusedSelectedItem item =>
      { m with state := .selectedItemHighlighted (jsFindIndex
            (fun it => decide (config.toItemId it = config.toItemId item))
            m.selectedItems) }
  | _ => m

/-- The `focused__closed` arm of the source's `updateModel` switch. -/
def updateFocusedClosed {ι T : Type} [DecidableEq ι] (config : Config ι T)
    (m : Model T) (msg : Msg T) : Model T :=
  match msg with
  | .pressedInput =>
      { m with state := .focusedOpened }
  | .blurredInput =>
      { m with state := .blurred }
  | .inputtedValue v =>
      if m.inputMode = .selectOnly then
        resetInputValue config { m with state := .focusedOpened }
      else if v = "" ∧ isSingle m.selectMode then
        -- the source's two remaining branches coincide
        setInputValue { m with state := .focusedOpened } v
      else
        setInputValue { m with state := .focusedOpened } v
  | .pressedEnterKey =>
      resetInputValue config { m with state := .focusedOpened }
  | .pressedVerticalArrowKey _ =>
      if isSingle m.selectMode then
        resetInputValue config { m with state := .focusedOpened }
      else
        resetInputValue config
          { m with state := .focusedOpenedHighlighted (jsOrZero (toSelectedItemIndex config m)) }
  | .pressedHorizontalArrowKey key =>
      updateKeyboardNavigationForSelections m key
  | .pressedUnselectButton item =>
      let removed := m.selectedItems.filter
        (fun x => decide (config.toItemId x ≠ config.toItemId item))
      if isNonEmpty removed then { m with selectedItems := removed }
      else { m with state := .focusedClosed }
  | .focusedSelectedItem item =>
      { m with state := .selectedItemHighlighted (jsFindIndex
            (fun it => decide (config.toItemId it = config.toItemId item))
            m.selectedItems) }
  | .pressedBackspaceKey =>
      if m.inputMode = .selectOnly ∧ isSingle m.selectMode then
        { m with state := .focusedOpened, selectedItems := [] }
      else if (match m.inputMode with
               | .searchMode v => decide (v = "")
               | .selectOnly => false) then
        let removed := m.selectedItems.drop 1
        if isNonEmpty removed then { m with selectedItems := removed }
        else { m with state := .focusedOpened }
      else m
  | .pressedUnselectAllButton =>
      { m with state := .focusedClosed }
  | _ => m

/-- The `focused__opened` arm of the source's `updateModel` switch. -/
def updateFocusedOpened {ι T : Type} [DecidableEq ι] (config : Config ι T)
    (m : Model T) (msg : Msg T) : Model T :=
  match msg with
  | .hoveredOverItem index =>
      { m with state := .focusedOpenedHighlighted index }
  | .blurredInput =>
      { m with state := .blurred }
  | .pressedInput =>
      { m with state := .focusedClosed }
  | .pressedItem item =>
      if config.isEmptyItem item then { m with state := .focusedClosed }
      else toggleSelected config m item
  | .inputtedValue v =>
      if m.inputMode = .selectOnly then
        resetInputValue config { m with state := .focusedOpened }
      else if v = "" ∧ isSingle m.selectMode then
        clearInputValue { m with selectedItems := [], state := .focusedOpened }
      else setInputValue m v
  | .pressedEnterKey =>
      resetInputValue config { m with state := .focusedClosed }
  | .pressedVerticalArrowKey key =>
      let visible := toVisibleItems config m
      let selectedIndex := jsFindIndex
        (fun item => m.selectedItems.any
          (fun x => decide (config.toItemId item = config.toItemId x)))
        visible
      if selectedIndex = -1 then
        { m with state := .focusedOpenedHighlighted 0 }
      else
        let delta : Int := if key then 1 else -1
        { m with state := .focusedOpenedHighlighted (circularIndex (selectedIndex + delta) visible.length) }
  | .pressedEscapeKey =>
      { m with state := .focusedClosed }
  | .pressedHorizontalArrowKey key =>
      updateKeyboardNavigationForSelections m key
  | .pressedUnselectButton item =>
      let removed := m.selectedItems.filter
        (fun x => decide (config.toItemId x ≠ config.toItemId item))
      if isNonEmpty removed then { m with selectedItems := removed }
      else { m with state := .focusedOpened }
  | .pressedBackspaceKey =>
      if m.inputMode = .selectOnly ∧ isSingle m.selectMode then
        { m with selectedItems := [] }
      else if toSearchValue m = "" then
        { m with selectedItems := m.selectedItems.drop 1 }
      else m
  | .pressedUnselectAllButton =>
      { m with state := .focusedOpened }
  | _ => m

/-- The `focused__opened__highlighted` arm of the source's `updateModel`
switch; `hi` is the phase's `highlightIndex` payload. -/
def updateFocusedOpenedHighlighted {ι T : Type} [DecidableEq ι] (config : Config ι T)
    (m : Model T) (hi : Int) (msg : Msg T) : Model T :=
  match msg with
  | .hoveredOverItem index =>
      { m with state := .focusedOpenedHighlighted index }
  | .blurredInput =>
      { m with state := .blurred }
  | .pressedItem item =>
      if config.isEmptyItem item then { m with state := .focusedClosed }
      else if isSingle m.selectMode then
        resetInputValue config
          { m with state := .focusedClosed
                   selectedItems := addSelected m.selectMode item m.selectedItems }
      else if ¬ isItemSelected config m item then
        resetInputValue config
          { m with state := .focusedClosed
                   selectedItems := addSelected m.selectMode item m.selectedItems }
      else
        let removed := m.selectedItems.filter
          (fun x => decide (config.toItemId x ≠ config.toItemId item))
        if isNonEmpty removed then
          { m with state := .focusedClosed, selectedItems := removed }
        else
          { m with state := .focusedClosed }
  | .inputtedValue v =>
      if m.inputMode = .selectOnly then
        resetInputValue config { m with state := .focusedOpened }
      else if v = "" ∧ isSingle m.selectMode then
        clearInputValue { m with selectedItems := [], state := .focusedOpened }
      else setInputValue m v
  | .pressedVerticalArrowKey key =>
      let visible := toVisibleItems config m
      let delta : Int := if key then 1 else -1
      { m with state := .focusedOpenedHighlighted (circularIndex (hi + delta) visible.length) }
  | .pressedHorizontalArrowKey key =>
      updateKeyboardNavigationForSelections m key
  | .pressedEnterKey =>
      let visible := toVisibleItems config m
      (match jsGetElem visible hi with
      | none => { m with state := .focusedClosed }
      | some enteredItem =>
        if config.isEmptyItem enteredItem then
          { m with state := .focusedClosed }
        else if isSingle m.selectMode then
          resetInputValue config
            { m with selectedItems := addSelected m.selectMode enteredItem m.selectedItems
                     state := .focusedClosed }
        else if ¬ isItemSelected config m enteredItem then
          clearInputValue
            { m with selectedItems := addSelected m.selectMode enteredItem m.selectedItems
                     state := .focusedClosed }
        else
          let removed := m.selectedItems.filter
            (fun x => decide (config.toItemId x ≠ config.toItemId enteredItem))
          if isNonEmpty removed then
            clearInputValue { m with selectedItems := removed, state := .focusedClosed }
          else
            clearInputValue { m with state := .focusedClosed })
  | .pressedEscapeKey =>
      { m with state := .focusedClosed }
  | .pressedUnselectButton item =>
      let removed := m.selectedItems.filter
        (fun x => decide (config.toItemId x ≠ config.toItemId item))
      if isNonEmpty removed then { m with selectedItems := removed }
      else { m with state := .focusedOpenedHighlighted hi }
  | .focusedSelectedItem item =>
      { m with state := .selectedItemHighlighted (jsFindIndex
            (fun it => decide (config.toItemId it = config.toItemId item))
            m.selectedItems) }
  | .pressedBackspaceKey =>
      if toSearchValue m = "" then
        let removed := m.selectedItems.drop 1
        if isNonEmpty removed then { m with selectedItems := removed }
        else { m with state := .focusedOpened }
      else m
  | .pressedUnselectAllButton =>
      { m with state := .focusedOpened }
  | _ => m

/-- The `selected-item-highlighted` arm of the source's `updateModel`
switch; `fi` is the phase's `focusedIndex` payload. -/
def updateSelectedItemHighlighted {ι T : Type} [DecidableEq ι] (config : Config ι T)
    (m : Model T) (fi : Int) (msg : Msg T) : Model T :=
  match msg with
  | .pressedHorizontalArrowKey key =>
      (match m.selectMode with
       | .singleSelect => clearInputValue { m with state := .focusedClosed }
       | .multiSelect dir =>
         if fi = 0 ∧ dir = .rightToLeft ∧ key = true then
           clearInputValue { m with state := .focusedClosed }
         else if fi = 0 ∧ dir = .leftToRight ∧ key = false then
           clearInputValue { m with state := .focusedClosed }
         else
           let delta : Int :=
             match dir with
             | .rightToLeft => if key then -1 else 1
             | .leftToRight => if key = false then -1 else 1
           { m with state := .selectedItemHighlighted (clampIndex (fi + delta) m.selectedItems.length) })
  | .pressedVerticalArrowKey _ =>
      if isSingle m.selectMode then
        resetInputValue config { m with state := .focusedOpened }
      else
        resetInputValue config
          { m with state := .focusedOpenedHighlighted (jsOrZero (toSelectedItemIndex config m)) }
  | .inputtedValue v =>
      if m.inputMode = .selectOnly then
        setInputValue { m with state := .focusedOpened }
          (modelToInputValue config m)
      else if toSearchValue m = "" then
        setInputValue { m with selectedItems := [], state := .focusedOpened } v
      else
        setInputValue { m with state := .focusedOpened } v
  | .pressedKey _ =>
      clearInputValue { m with state := .focusedClosed }
  | .pressedEnterKey =>
      clearInputValue { m with state := .focusedClosed }
  | .pressedEscapeKey =>
      clearInputValue { m with state := .focusedClosed }
  | .pressedBackspaceKey =>
      clearInputValue
        { m with selectedItems := filterIndexNe m.selectedItems fi
                 state := .focusedClosed }
  | .pressedUnselectButton item =>
      let removed := m.selectedItems.filter
        (fun x => decide (config.toItemId x ≠ config.toItemId item))
      if isNonEmpty removed then
        { m with selectedItems := removed
                 state := .selectedItemHighlighted (clampIndex fi removed.length) }
      else clearInputValue { m with state := .focusedClosed }
  | .focusedSelectedItem item =>
      { m with state := .selectedItemHighlighted (jsFindIndex
            (fun it => decide (config.toItemId it = config.toItemId item))
            m.selectedItems) }
  | .blurredSelectedItem _ =>
      m
  | .focusedInput =>
      clearInputValue { m with state := .focusedOpened }
  | .pressedUnselectAllButton =>
      clearInputValue { m with state := .focusedOpened }
  | _ => m

/-- Source `updateModel`: the phase × event transition table, dispatching on
the phase tag to the per-phase arm; each arm's unlisted events fall into its
`default` branch. -/
def updateModel {ι T : Type} [DecidableEq ι] (config : Config ι T)
    (m : Model T) (msg : Msg T) : Model T :=
  match m.state with
  | .blurred => updateBlurred config m msg
  | .focusedClosed => updateFocusedClosed config m msg
  | .focusedOpened => updateFocusedOpened config m msg
  | .focusedOpenedHighlighted hi => updateFocusedOpenedHighlighted config m hi msg
  | .selectedItemHighlighted fi => updateSelectedItemHighlighted config m fi msg

/-- Source `updateSetters`: the `set-*` overlay, applied to the result of
`updateModel` regardless of phase. -/
def updateSetters {T : Type} (m : Model T) (msg : Msg T) : Model T :=
  match msg with
  | .setAllItems allItems => { m with allItems := allItems }
  | .setSelectedItems selectedItems =>
      if isSelected m then { m with selectedItems := selectedItems }
      else { m with state := .blurred, selectedItems := selectedItems }
  | .setInputValue v =>
      match m.inputMode with
      | .searchMode _ => { m with inputMode := .searchMode v }
      | .selectOnly => m
  | .setHighlightIndex hi =>
      if isHighlighted m.state then { m with state := .focusedOpenedHighlighted hi }
      else m
  | .setMode mode => { m with selectMode := mode }
  | _ => m

/-- Effect computation of `update` (the six `effects.push` sites, in
order). -/
def computeEffects {ι T : Type} (config : Config ι T) (old out : Model T)
    (msg : Msg T) : List (Effect T) :=
  -- scroll to selected item into view when state changes from closed to opened
  (if isClosed old.state && isOpened out.state && isSelected out then
    match out.selectedItems with
    | x :: _ => [Effect.scrollItemIntoView x]
    | [] => []
  else []) ++
  -- focus on input when user presses it
  (if msg.type = .pressedInput then [Effect.focusInput] else []) ++
  -- scroll highlighted item into view when navigating with keyboard
  (match out.state with
   | .focusedOpenedHighlighted hi =>
     if msg.type = .pressedVerticalArrowKey then
       match jsGetElem (toVisibleItems config out) hi with
       | some item => [Effect.scrollItemIntoView item]
       | none => []
     else []
   | _ => []) ++
  -- focus on selected item when highlighted
  (match out.state with
   | .selectedItemHighlighted fi =>
     match jsGetElem out.selectedItems fi with
     | some item => [Effect.focusSelectedItem item]
     | none => []
   | _ => []) ++
  -- focus on input when navigating selected items with keyboard
  (if isSelectedItemHighlighted old.state &&
      !isSelectedItemHighlighted out.state then [Effect.focusInput] else []) ++
  -- focus on input after clearing selectedItems
  (if msg.type = .pressedUnselectAllButton then [Effect.focusInput] else [])

/-- Whether an effect list contains a `scroll-item-into-view` request. -/
def hasScrollEffect {T : Type} (effects : List (Effect T)) : Bool :=
  effects.any (fun e => match e with
    | .scrollItemIntoView _ => true
    | _ => false)

/-- First suppression-scheduling rule of `update`: the dropdown just opened
with a scroll effect, so schedule two `hovered-over-item` suppressions
(overwriting `skipOnce`). -/
def skipOnceRuleOpenedScroll {T : Type} (old out : Model T)
    (effects : List (Effect T)) : Model T :=
  if isClosed old.state && isOpened out.state && hasScrollEffect effects then
    { out with skipOnce := [MsgType.hoveredOverItem, MsgType.hoveredOverItem] }
  else out

/-- Second rule: the dropdown just opened, so append one more
`hovered-over-item` suppression. -/
def skipOnceRuleOpened {T : Type} (old out : Model T) : Model T :=
  if isClosed old.state && isOpened out.state then
    { out with skipOnce := out.skipOnce ++ [MsgType.hoveredOverItem] }
  else out

/-- Third rule: some scroll effect was emitted, so overwrite `skipOnce` with
a single `hovered-over-item` suppression. -/
def skipOnceRuleScroll {T : Type} (out : Model T)
    (effects : List (Effect T)) : Model T :=
  if hasScrollEffect effects then
    { out with skipOnce := [MsgType.hoveredOverItem] }
  else out

/-- Fourth rule: the input just became focused from `blurred` or from the
chip list, so append a `pressed-input` suppression. -/
def skipOnceRuleFocused {T : Type} (old out : Model T) : Model T :=
  if (isBlurred old.state || isSelectedItemHighlighted old.state) &&
      isFocused out.state then
    { out with skipOnce := out.skipOnce ++ [MsgType.pressedInput] }
  else out

/-- The four sequential suppression-scheduling edge-case rules at the end of
`update`, in source order: each reassigns `output.model`, so later rules see
(and may overwrite) the `skipOnce` produced by earlier ones.  The rules only
rewrite `skipOnce`, so the conditions on the phase read the same state
throughout, exactly as in the source. -/
def scheduleSkipOnce {T : Type} (old : Model T) (out : Model T)
    (effects : List (Effect T)) : Model T :=
  skipOnceRuleFocused old
    (skipOnceRuleScroll
      (skipOnceRuleOpened old
        (skipOnceRuleOpenedScroll old out effects))
      effects)

/-- The `update` pipeline after the skip-once guard: transition table,
setter overlay, effect computation, suppression scheduling. -/
def updateCore {ι T : Type} [DecidableEq ι] (config : Config ι T)
    (m : Model T) (msg : Msg T) : Model T × List (Effect T) :=
  let out := updateSetters (updateModel config m msg) msg
  let effects := computeEffects config m out msg
  (scheduleSkipOnce m out effects, effects)

/-- Source `update`: swallow the event if its type is in `skipOnce`
(removing one occurrence), otherwise run the transition pipeline. -/
def update {ι T : Type} [DecidableEq ι] (config : Config ι T)
    (m : Model T) (msg : Msg T) : Model T × List (Effect T) :=
  if msg.type ∈ m.skipOnce then
    ({ m with skipOnce := removeFirst (fun t => decide (t = msg.type)) m.skipOnce },
     [])
  else updateCore config m msg

/-- Source `init`: blurred, nothing selected, caller-supplied items and
optional modes (defaults: search mode with empty text, single-select). -/
def init {T : Type} (allItems : List T) (selectMode : Option SelectMode)
    (inputMode : Option InputMode) : Model T :=
  { state := .blurred
    selectedItems := []
    allItems := allItems
    skipOnce := []
    inputMode := inputMode.getD (.searchMode "")
    selectMode := selectMode.getD .singleSelect }

/-- Models reachable from `init` by any sequence of `update` calls. -/
inductive Reachable {ι T : Type} [DecidableEq ι] (config : Config ι T) :
    Model T → Prop
  | init (allItems : List T) (selectMode : Option SelectMode)
      (inputMode : Option InputMode) :
      Reachable config (init allItems selectMode inputMode)
  | step (m : Model T) (msg : Msg T) (h : Reachable config m) :
      Reachable config (update config m msg).1

/-- Models reachable from `init` by update sequences that avoid the two
selection-rewriting setters `set-selected-items` and `set-mode`. -/
inductive ReachableNoSelectionSetters {ι T : Type} [DecidableEq ι]
    (config : Config ι T) : Model T → Prop
  | init (allItems : List T) (selectMode : Option SelectMode)
      (inputMode : Option InputMode) :
      ReachableNoSelectionSetters config (init allItems selectMode inputMode)
  | step (m : Model T) (msg : Msg T)
      (hsel : msg.type ≠ .setSelectedItems) (hmode : msg.type ≠ .setMode)
      (h : ReachableNoSelectionSetters config m) :
      ReachableNoSelectionSetters config (update config m msg).1

/-- The event types listed as `case` labels in each phase's `switch` of
`updateModel` (its transition table), phase by phase; everything else falls
into that phase's `default` branch. -/
def phaseHandles : ModelState → MsgType → Bool
  | .blurred, t =>
      t = .focusedInput ∨ t = .pressedUnselectAllButton ∨
      t = .pressedUnselectButton ∨ t = .focusedSelectedItem
  | .focusedClosed, t =>
      t = .pressedInput ∨ t = .blurredInput ∨ t = .inputtedValue ∨
      t = .pressedEnterKey ∨ t = .pressedVerticalArrowKey ∨
      t = .pressedHorizontalArrowKey ∨ t = .pressedUnselectButton ∨
      t = .focusedSelectedItem ∨ t = .pressedBackspaceKey ∨
      t = .pressedUnselectAllButton
  | .focusedOpened, t =>
      t = .hoveredOverItem ∨ t = .blurredInput ∨ t = .pressedInput ∨
      t = .pressedItem ∨ t = .inputtedValue ∨ t = .pressedEnterKey ∨
      t = .pressedVerticalArrowKey ∨ t = .pressedEscapeKey ∨
      t = .pressedHorizontalArrowKey ∨ t = .pressedUnselectButton ∨
      t = .pressedBackspaceKey ∨ t = .pressedUnselectAllButton
  | .focusedOpenedHighlighted _, t =>
      t = .hoveredOverItem ∨ t = .blurredInput ∨ t = .pressedItem ∨
      t = .inputtedValue ∨ t = .pressedVerticalArrowKey ∨
      t = .pressedHorizontalArrowKey ∨ t = .pressedEnterKey ∨
      t = .pressedEscapeKey ∨ t = .pressedUnselectButton ∨
      t = .focusedSelectedItem ∨ t = .pressedBackspaceKey ∨
      t = .pressedUnselectAllButton
  | .selectedItemHighlighted _, t =>
      t = .pressedHorizontalArrowKey ∨ t = .pressedVerticalArrowKey ∨
      t = .inputtedValue ∨ t = .pressedKey ∨ t = .pressedEnterKey ∨
      t = .pressedEscapeKey ∨ t = .pressedBackspaceKey ∨
      t = .pressedUnselectButton ∨ t = .focusedSelectedItem ∨
      t = .blurredSelectedItem ∨ t = .focusedInput ∨
      t = .pressedUnselectAllButton

/-- The `set-*` event types (handled by the `updateSetters` overlay, not by
any phase's transition table). -/
def isSetterMsg : MsgType → Bool
  | .setAllItems => true
  | .setSelectedItems => true
  | .setInputValue => true
  | .setHighlightIndex => true
  | .setMode => true
  | _ => false

/-! Concrete instances used to exercise the theorems on explicit inputs.
Items are natural numbers identified by themselves. -/

/-- A concrete configuration over `Nat` items. -/
def sampleConfig : Config Nat Nat where
  toItemId := fun n => n
  toItemInputValue := fun n => if n = 0 then "zero" else "item" ++ toString n
  deterministicFilter := fun m => m.allItems
  isEmptyItem := fun _ => false
  nspace := "combobox"

/-- Dropdown open, nothing selected (the state after Scenario 1). -/
def openedNoSelection : Model Nat where
  state := .focusedOpened
  allItems := [1, 2, 3]
  selectedItems := []
  skipOnce := []
  selectMode := .singleSelect
  inputMode := .searchMode ""

/-- Closed and focused, single-select, item 2 selected. -/
def closedWithSelection : Model Nat where
  state := .focusedClosed
  allItems := [1, 2, 3]
  selectedItems := [2]
  skipOnce := []
  selectMode := .singleSelect
  inputMode := .searchMode ""

/-- Closed and focused, multi-select, item 2 selected. -/
def closedWithSelectionMulti : Model Nat where
  state := .focusedClosed
  allItems := [1, 2, 3]
  selectedItems := [2]
  skipOnce := []
  selectMode := .multiSelect .leftToRight
  inputMode := .searchMode ""

/-- Chip focus on the single selected item. -/
def chipFocused : Model Nat where
  state := .selectedItemHighlighted 0
  allItems := [1]
  selectedItems := [1]
  skipOnce := []
  selectMode := .multiSelect .leftToRight
  inputMode := .searchMode ""

/-- Single-select with item 0 selected and live search text `"zero"`. -/
def selectedWithText : Model Nat where
  state := .focusedClosed
  allItems := [0, 1]
  selectedItems := [0]
  skipOnce := []
  selectMode := .singleSelect
  inputMode := .searchMode "zero"

/-- Highlighted phase at index 0, select-only input over three items. -/
def highlightedSelectOnly : Model Nat where
  state := .focusedOpenedHighlighted 0
  allItems := [1, 2, 3]
  selectedItems := []
  skipOnce := []
  selectMode := .singleSelect
  inputMode := .selectOnly

/-! General lemmas about the embedding (shared by several results below). -/

section Lemmas

set_option linter.unusedSectionVars false

variable {ι T : Type} [DecidableEq ι]

@[simp] lemma setInputValue_state (m : Model T) (v : String) :
    (setInputValue m v).state = m.state := by
  unfold setInputValue; split <;> rfl

@[simp] lemma setInputValue_allItems (m : Model T) (v : String) :
    (setInputValue m v).allItems = m.allItems := by
  unfold setInputValue; split <;> rfl

@[simp] lemma setInputValue_selectedItems (m : Model T) (v : String) :
    (setInputValue m v).selectedItems = m.selectedItems := by
  unfold setInputValue; split <;> rfl

@[simp] lemma setInputValue_selectMode (m : Model T) (v : String) :
    (setInputValue m v).selectMode = m.selectMode := by
  unfold setInputValue; split <;> rfl

@[simp] lemma setInputValue_skipOnce (m : Model T) (v : String) :
    (setInputValue m v).skipOnce = m.skipOnce := by
  unfold setInputValue; split <;> rfl

@[simp] lemma clearInputValue_state (m : Model T) :
    (clearInputValue m).state = m.state := by
  simp [clearInputValue]

@[simp] lemma clearInputValue_allItems (m : Model T) :
    (clearInputValue m).allItems = m.allItems := by
  simp [clearInputValue]

@[simp] lemma clearInputValue_selectedItems (m : Model T) :
    (clearInputValue m).selectedItems = m.selectedItems := by
  simp [clearInputValue]

@[simp] lemma clearInputValue_selectMode (m : Model T) :
    (clearInputValue m).selectMode = m.selectMode := by
  simp [clearInputValue]

@[simp] lemma clearInputValue_skipOnce (m : Model T) :
    (clearInputValue m).skipOnce = m.skipOnce := by
  simp [clearInputValue]

@[simp] lemma resetInputValue_state (config : Config ι T) (m : Model T) :
    (resetInputValue config m).state = m.state := by
  simp [resetInputValue]

@[simp] lemma resetInputValue_allItems (config : Config ι T) (m : Model T) :
    (resetInputValue config m).allItems = m.allItems := by
  simp [resetInputValue]

@[simp] lemma resetInputValue_selectedItems (config : Config ι T) (m : Model T) :
    (resetInputValue config m).selectedItems = m.selectedItems := by
  simp [resetInputValue]

@[simp] lemma resetInputValue_selectMode (config : Config ι T) (m : Model T) :
    (resetInputValue config m).selectMode = m.selectMode := by
  simp [resetInputValue]

@[simp] lemma resetInputValue_skipOnce (config : Config ι T) (m : Model T) :
    (resetInputValue config m).skipOnce = m.skipOnce := by
  simp [resetInputValue]

@[simp] lemma skipOnceRuleOpenedScroll_state (old out : Model T) (effects : List (Effect T)) :
    (skipOnceRuleOpenedScroll old out effects).state = out.state := by
  unfold skipOnceRuleOpenedScroll; split <;> rfl

@[simp] lemma skipOnceRuleOpenedScroll_allItems (old out : Model T) (effects : List (Effect T)) :
    (skipOnceRuleOpenedScroll old out effects).allItems = out.allItems := by
  unfold skipOnceRuleOpenedScroll; split <;> rfl

@[simp] lemma skipOnceRuleOpenedScroll_selectedItems (old out : Model T) (effects : List (Effect T)) :
    (skipOnceRuleOpenedScroll old out effects).selectedItems = out.selectedItems := by
  unfold skipOnceRuleOpenedScroll; split <;> rfl

@[simp] lemma skipOnceRuleOpenedScroll_selectMode (old out : Model T) (effects : List (Effect T)) :
    (skipOnceRuleOpenedScroll old out effects).selectMode = out.selectMode := by
  unfold skipOnceRuleOpenedScroll; split <;> rfl

@[simp] lemma skipOnceRuleOpenedScroll_inputMode (old out : Model T) (effects : List (Effect T)) :
    (skipOnceRuleOpenedScroll old out effects).inputMode = out.inputMode := by
  unfold skipOnceRuleOpenedScroll; split <;> rfl

@[simp] lemma skipOnceRuleOpened_state (old out : Model T) :
    (skipOnceRuleOpened old out).state = out.state := by
  unfold skipOnceRuleOpened; split <;> rfl

@[simp] lemma skipOnceRuleOpened_allItems (old out : Model T) :
    (skipOnceRuleOpened old out).allItems = out.allItems := by
  unfold skipOnceRuleOpened; split <;> rfl

@[simp] lemma skipOnceRuleOpened_selectedItems (old out : Model T) :
    (skipOnceRuleOpened old out).selectedItems = out.selectedItems := by
  unfold skipOnceRuleOpened; split <;> rfl

@[simp] lemma skipOnceRuleOpened_selectMode (old out : Model T) :
    (skipOnceRuleOpened old out).selectMode = out.selectMode := by
  unfold skipOnceRuleOpened; split <;> rfl

@[simp] lemma skipOnceRuleOpened_inputMode (old out : Model T) :
    (skipOnceRuleOpened old out).inputMode = out.inputMode := by
  unfold skipOnceRuleOpened; split <;> rfl

@[simp] lemma skipOnceRuleScroll_state (out : Model T) (effects : List (Effect T)) :
    (skipOnceRuleScroll out effects).state = out.state := by
  unfold skipOnceRuleScroll; split <;> rfl

@[simp] lemma skipOnceRuleScroll_allItems (out : Model T) (effects : List (Effect T)) :
    (skipOnceRuleScroll out effects).allItems = out.allItems := by
  unfold skipOnceRuleScroll; split <;> rfl

@[simp] lemma skipOnceRuleScroll_selectedItems (out : Model T) (effects : List (Effect T)) :
    (skipOnceRuleScroll out effects).selectedItems = out.selectedItems := by
  unfold skipOnceRuleScroll; split <;> rfl

@[simp] lemma skipOnceRuleScroll_selectMode (out : Model T) (effects : List (Effect T)) :
    (skipOnceRuleScroll out effects).selectMode = out.selectMode := by
  unfold skipOnceRuleScroll; split <;> rfl

@[simp] lemma skipOnceRuleScroll_inputMode (out : Model T) (effects : List (Effect T)) :
    (skipOnceRuleScroll out effects).inputMode = out.inputMode := by
  unfold skipOnceRuleScroll; split <;> rfl

@[simp] lemma skipOnceRuleFocused_state (old out : Model T) :
    (skipOnceRuleFocused old out).state = out.state := by
  unfold skipOnceRuleFocused; split <;> rfl

@[simp] lemma skipOnceRuleFocused_allItems (old out : Model T) :
    (skipOnceRuleFocused old out).allItems = out.allItems := by
  unfold skipOnceRuleFocused; split <;> rfl

@[simp] lemma skipOnceRuleFocused_selectedItems (old out : Model T) :
    (skipOnceRuleFocused old out).selectedItems = out.selectedItems := by
  unfold skipOnceRuleFocused; split <;> rfl

@[simp] lemma skipOnceRuleFocused_selectMode (old out : Model T) :
    (skipOnceRuleFocused old out).selectMode = out.selectMode := by
  unfold skipOnceRuleFocused; split <;> rfl

@[simp] lemma skipOnceRuleFocused_inputMode (old out : Model T) :
    (skipOnceRuleFocused old out).inputMode = out.inputMode := by
  unfold skipOnceRuleFocused; split <;> rfl

@[simp] lemma scheduleSkipOnce_state (old out : Model T) (effects : List (Effect T)) :
    (scheduleSkipOnce old out effects).state = out.state := by
  simp [scheduleSkipOnce]

@[simp] lemma scheduleSkipOnce_allItems (old out : Model T) (effects : List (Effect T)) :
    (scheduleSkipOnce old out effects).allItems = out.allItems := by
  simp [scheduleSkipOnce]

@[simp] lemma scheduleSkipOnce_selectedItems (old out : Model T) (effects : List (Effect T)) :
    (scheduleSkipOnce old out effects).selectedItems = out.selectedItems := by
  simp [scheduleSkipOnce]

@[simp] lemma scheduleSkipOnce_selectMode (old out : Model T) (effects : List (Effect T)) :
    (scheduleSkipOnce old out effects).selectMode = out.selectMode := by
  simp [scheduleSkipOnce]

@[simp] lemma scheduleSkipOnce_inputMode (old out : Model T) (effects : List (Effect T)) :
    (scheduleSkipOnce old out effects).inputMode = out.inputMode := by
  simp [scheduleSkipOnce]

lemma updateKeyboardNavigationForSelections_allItems (m : Model T) (key : Bool) :
    (updateKeyboardNavigationForSelections m key).allItems = m.allItems := by
  unfold updateKeyboardNavigationForSelections
  split
  · rfl
  · split <;> [rfl; (split_ifs <;> rfl)]

lemma updateKeyboardNavigationForSelections_selectedItems (m : Model T) (key : Bool) :
    (updateKeyboardNavigationForSelections m key).selectedItems = m.selectedItems := by
  unfold updateKeyboardNavigationForSelections
  split
  · rfl
  · split <;> [rfl; (split_ifs <;> rfl)]

lemma updateKeyboardNavigationForSelections_selectMode (m : Model T) (key : Bool) :
    (updateKeyboardNavigationForSelections m key).selectMode = m.selectMode := by
  unfold updateKeyboardNavigationForSelections
  split
  · rfl
  · split <;> [rfl; (split_ifs <;> rfl)]

lemma updateKeyboardNavigationForSelections_state (m : Model T) (key : Bool) :
    (updateKeyboardNavigationForSelections m key).state = m.state ∨
    (updateKeyboardNavigationForSelections m key).state = .selectedItemHighlighted 0 := by
  unfold updateKeyboardNavigationForSelections
  split
  · exact Or.inl rfl
  · split
    · exact Or.inl rfl
    · split_ifs <;> simp

lemma toggleSelected_allItems (config : Config ι T) (m : Model T) (item : T) :
    (toggleSelected config m item).allItems = m.allItems := by
  unfold toggleSelected
  split_ifs <;> simp [apply_ite]

lemma toggleSelected_selectMode (config : Config ι T) (m : Model T) (item : T) :
    (toggleSelected config m item).selectMode = m.selectMode := by
  unfold toggleSelected
  split_ifs <;> simp [apply_ite]

lemma toggleSelected_state (config : Config ι T) (m : Model T) (item : T) :
    (toggleSelected config m item).state = m.state ∨
    (toggleSelected config m item).state = .focusedClosed := by
  unfold toggleSelected
  split_ifs <;> simp [apply_ite]

lemma toggleSelected_selectedItems_single (config : Config ι T) (m : Model T)
    (item : T) (h : m.selectMode = .singleSelect) :
    (toggleSelected config m item).selectedItems = m.selectedItems ∨
    (toggleSelected config m item).selectedItems = [item] := by
  unfold toggleSelected
  split_ifs with h1 h2 h3 <;> simp_all [isSingle, addSelected]

@[simp] lemma jsFindIndex_ge_neg_one {α : Type} (p : α → Bool) (l : List α) :
    -1 ≤ jsFindIndex p l := by
  unfold jsFindIndex
  cases h : l.findIdx? p with
  | none => simp
  | some k => simp; omega

@[simp] lemma clampIndex_nonneg (i : Int) (n : Nat) : 0 ≤ clampIndex i n := by
  unfold clampIndex
  split
  · exact le_refl 0
  · exact le_max_left 0 _



set_option maxHeartbeats 1000000 in
lemma updateBlurred_allItems (config : Config ι T) (m : Model T) (msg : Msg T) :
    (updateBlurred config m msg).allItems = m.allItems := by
  obtain ⟨st, ai, sel, sk, sm, im⟩ := m
  cases msg <;>
    simp [updateBlurred, apply_ite]

set_option maxHeartbeats 1000000 in
lemma updateFocusedClosed_allItems (config : Config ι T) (m : Model T) (msg : Msg T) :
    (updateFocusedClosed config m msg).allItems = m.allItems := by
  obtain ⟨st, ai, sel, sk, sm, im⟩ := m
  cases msg <;> simp only [updateFocusedClosed] <;> (repeat' split) <;>
    simp [apply_ite, updateKeyboardNavigationForSelections_allItems]

set_option maxHeartbeats 1000000 in
lemma updateFocusedOpened_allItems (config : Config ι T) (m : Model T) (msg : Msg T) :
    (updateFocusedOpened config m msg).allItems = m.allItems := by
  obtain ⟨st, ai, sel, sk, sm, im⟩ := m
  cases msg <;> simp only [updateFocusedOpened] <;> (repeat' split) <;>
    simp [apply_ite, toggleSelected_allItems, updateKeyboardNavigationForSelections_allItems]

set_option maxHeartbeats 1000000 in
lemma updateFocusedOpenedHighlighted_allItems (config : Config ι T) (m : Model T) (hi : Int) (msg : Msg T) :
    (updateFocusedOpenedHighlighted config m hi msg).allItems = m.allItems := by
  obtain ⟨st, ai, sel, sk, sm, im⟩ := m
  cases msg <;> simp only [updateFocusedOpenedHighlighted] <;> (repeat' split) <;>
    simp [apply_ite, toggleSelected_allItems, updateKeyboardNavigationForSelections_allItems]

set_option maxHeartbeats 1000000 in
lemma updateSelectedItemHighlighted_allItems (config : Config ι T) (m : Model T) (fi : Int) (msg : Msg T) :
    (updateSelectedItemHighlighted config m fi msg).allItems = m.allItems := by
  obtain ⟨st, ai, sel, sk, sm, im⟩ := m
  cases msg <;> simp only [updateSelectedItemHighlighted.eq_def] <;> (repeat' split) <;>
    simp [apply_ite, clampIndex_nonneg]

lemma updateModel_allItems (config : Config ι T) (m : Model T) (msg : Msg T) :
    (updateModel config m msg).allItems = m.allItems := by
  unfold updateModel
  split <;>
    simp [updateBlurred_allItems, updateFocusedClosed_allItems,
      updateFocusedOpened_allItems, updateFocusedOpenedHighlighted_allItems,
      updateSelectedItemHighlighted_allItems]

set_option maxHeartbeats 1000000 in
lemma updateBlurred_selectMode (config : Config ι T) (m : Model T) (msg : Msg T) :
    (updateBlurred config m msg).selectMode = m.selectMode := by
  obtain ⟨st, ai, sel, sk, sm, im⟩ := m
  cases msg <;> simp only [updateBlurred] <;> (repeat' split) <;>
    simp [apply_ite]

set_option maxHeartbeats 1000000 in
lemma updateFocusedClosed_selectMode (config : Config ι T) (m : Model T) (msg : Msg T) :
    (updateFocusedClosed config m msg).selectMode = m.selectMode := by
  obtain ⟨st, ai, sel, sk, sm, im⟩ := m
  cases msg <;> simp only [updateFocusedClosed] <;> (repeat' split) <;>
    simp [apply_ite, updateKeyboardNavigationForSelections_selectMode]

set_option maxHeartbeats 1000000 in
lemma updateFocusedOpened_selectMode (config : Config ι T) (m : Model T) (msg : Msg T) :
    (updateFocusedOpened config m msg).selectMode = m.selectMode := by
  obtain ⟨st, ai, sel, sk, sm, im⟩ := m
  cases msg <;> simp only [updateFocusedOpened] <;> (repeat' split) <;>
    simp [apply_ite, toggleSelected_selectMode, updateKeyboardNavigationForSelections_selectMode]

set_option maxHeartbeats 1000000 in
lemma updateFocusedOpenedHighlighted_selectMode (config : Config ι T) (m : Model T) (hi : Int) (msg : Msg T) :
    (updateFocusedOpenedHighlighted config m hi msg).selectMode = m.selectMode := by
  obtain ⟨st, ai, sel, sk, sm, im⟩ := m
  cases msg <;> simp only [updateFocusedOpenedHighlighted] <;> (repeat' split) <;>
    simp [apply_ite, toggleSelected_selectMode, updateKeyboardNavigationForSelections_selectMode]

set_option maxHeartbeats 1000000 in
lemma updateSelectedItemHighlighted_selectMode (config : Config ι T) (m : Model T) (fi : Int) (msg : Msg T) :
    (updateSelectedItemHighlighted config m fi msg).selectMode = m.selectMode := by
  obtain ⟨st, ai, sel, sk, sm, im⟩ := m
  cases msg <;> simp only [updateSelectedItemHighlighted.eq_def] <;> (repeat' split) <;>
    simp [apply_ite]

lemma updateModel_selectMode (config : Config ι T) (m : Model T) (msg : Msg T) :
    (updateModel config m msg).selectMode = m.selectMode := by
  unfold updateModel
  split <;>
    simp [updateBlurred_selectMode, updateFocusedClosed_selectMode,
      updateFocusedOpened_selectMode, updateFocusedOpenedHighlighted_selectMode,
      updateSelectedItemHighlighted_selectMode]

lemma filterIndexNe_length_le {α : Type} (l : List α) (k : Int) :
    (filterIndexNe l k).length ≤ l.length := by
  unfold filterIndexNe
  calc ((l.enum.filter (fun p => decide ((p.1 : Int) ≠ k))).map Prod.snd).length
      = (l.enum.filter (fun p => decide ((p.1 : Int) ≠ k))).length := List.length_map _ _
    _ ≤ l.enum.length := List.length_filter_le _ _
    _ = l.length := List.enum_length

set_option maxHeartbeats 1000000 in
lemma updateFocusedClosed_len_single (config : Config ι T) (m : Model T) (msg : Msg T)
    (hm : m.selectMode = .singleSelect) (hlen : m.selectedItems.length ≤ 1) :
    (updateFocusedClosed config m msg).selectedItems.length ≤ 1 := by
  obtain ⟨st, ai, sel, sk, sm, im⟩ := m
  simp only at hm hlen
  subst hm
  cases msg <;> simp only [updateFocusedClosed] <;> (repeat' split) <;>
    (try simp_all [addSelected, updateKeyboardNavigationForSelections_selectedItems]) <;>
    (try (exact le_trans (List.length_filter_le _ _) hlen)) <;>
    (try (simp_all [List.length_drop])) <;>
    (try omega)

lemma toggleSelected_len_single (config : Config ι T) (m : Model T) (item : T)
    (hm : m.selectMode = .singleSelect) (hlen : m.selectedItems.length ≤ 1) :
    (toggleSelected config m item).selectedItems.length ≤ 1 := by
  rcases toggleSelected_selectedItems_single config m item hm with h | h <;> simp [h]
  exact hlen

set_option maxHeartbeats 1000000 in
lemma updateBlurred_len_single (config : Config ι T) (m : Model T) (msg : Msg T)
    (hm : m.selectMode = .singleSelect) (hlen : m.selectedItems.length ≤ 1) :
    (updateBlurred config m msg).selectedItems.length ≤ 1 := by
  obtain ⟨st, ai, sel, sk, sm, im⟩ := m
  simp only at hm hlen
  subst hm
  cases msg <;> simp only [updateBlurred] <;> (repeat' split) <;>
    (try simp_all [addSelected, updateKeyboardNavigationForSelections_selectedItems]) <;>
    (try (exact le_trans (List.length_filter_le _ _) hlen)) <;>
    (try (simp_all [List.length_drop])) <;>
    (try omega)

set_option maxHeartbeats 1000000 in
lemma updateFocusedOpened_len_single (config : Config ι T) (m : Model T) (msg : Msg T)
    (hm : m.selectMode = .singleSelect) (hlen : m.selectedItems.length ≤ 1) :
    (updateFocusedOpened config m msg).selectedItems.length ≤ 1 := by
  obtain ⟨st, ai, sel, sk, sm, im⟩ := m
  simp only at hm hlen
  subst hm
  cases msg <;> simp only [updateFocusedOpened] <;> (repeat' split) <;>
    (try simp_all [addSelected, updateKeyboardNavigationForSelections_selectedItems]) <;>
    (try (exact toggleSelected_len_single config _ _ rfl hlen)) <;>
    (try (exact le_trans (List.length_filter_le _ _) hlen)) <;>
    (try (simp_all [List.length_drop])) <;>
    (try omega)

set_option maxHeartbeats 1000000 in
lemma updateFocusedOpenedHighlighted_len_single (config : Config ι T) (m : Model T) (hi : Int) (msg : Msg T)
    (hm : m.selectMode = .singleSelect) (hlen : m.selectedItems.length ≤ 1) :
    (updateFocusedOpenedHighlighted config m hi msg).selectedItems.length ≤ 1 := by
  obtain ⟨st, ai, sel, sk, sm, im⟩ := m
  simp only at hm hlen
  subst hm
  cases msg <;> simp only [updateFocusedOpenedHighlighted] <;> (repeat' split) <;>
    (try simp_all [addSelected, updateKeyboardNavigationForSelections_selectedItems]) <;>
    (try (exact le_trans (List.length_filter_le _ _) hlen)) <;>
    (try (simp_all [List.length_drop])) <;>
    (try omega)

set_option maxHeartbeats 1000000 in
lemma updateSelectedItemHighlighted_len_single (config : Config ι T) (m : Model T) (fi : Int) (msg : Msg T)
    (hm : m.selectMode = .singleSelect) (hlen : m.selectedItems.length ≤ 1) :
    (updateSelectedItemHighlighted config m fi msg).selectedItems.length ≤ 1 := by
  obtain ⟨st, ai, sel, sk, sm, im⟩ := m
  simp only at hm hlen
  subst hm
  cases msg <;> simp only [updateSelectedItemHighlighted.eq_def] <;> (repeat' split) <;>
    (try simp_all [addSelected]) <;>
    (try (exact le_trans (List.length_filter_le _ _) hlen)) <;>
    (try (exact le_trans (filterIndexNe_length_le _ _) hlen)) <;>
    (try (simp_all [List.length_drop])) <;>
    (try omega)

lemma updateModel_len_single (config : Config ι T) (m : Model T) (msg : Msg T)
    (hm : m.selectMode = .singleSelect) (hlen : m.selectedItems.length ≤ 1) :
    (updateModel config m msg).selectedItems.length ≤ 1 := by
  unfold updateModel
  split
  · exact updateBlurred_len_single config m msg hm hlen
  · exact updateFocusedClosed_len_single config m msg hm hlen
  · exact updateFocusedOpened_len_single config m msg hm hlen
  · exact updateFocusedOpenedHighlighted_len_single config m _ msg hm hlen
  · exact updateSelectedItemHighlighted_len_single config m _ msg hm hlen

@[simp] lemma clampIndex_ge_neg_one (i : Int) (n : Nat) : -1 ≤ clampIndex i n :=
  le_trans (by norm_num) (clampIndex_nonneg i n)

lemma updateKeyboardNavigationForSelections_chip (m : Model T) (key : Bool)
    (hprev : ∀ fj, m.state = .selectedItemHighlighted fj → -1 ≤ fj) :
    ∀ fi, (updateKeyboardNavigationForSelections m key).state = .selectedItemHighlighted fi → -1 ≤ fi := by
  intro fi hfi
  rcases updateKeyboardNavigationForSelections_state m key with h | h
  · exact hprev fi (h ▸ hfi)
  · rw [h] at hfi
    cases hfi
    norm_num
  -- done

lemma toggleSelected_chip (config : Config ι T) (m : Model T) (item : T)
    (hprev : ∀ fj, m.state = .selectedItemHighlighted fj → -1 ≤ fj) :
    ∀ fi, (toggleSelected config m item).state = .selectedItemHighlighted fi → -1 ≤ fi := by
  intro fi hfi
  rcases toggleSelected_state config m item with h | h
  · exact hprev fi (h ▸ hfi)
  · rw [h] at hfi
    cases hfi

set_option maxHeartbeats 1000000 in
lemma updateBlurred_chip (config : Config ι T) (m : Model T) (msg : Msg T)
    (hprev : ∀ fj, m.state = .selectedItemHighlighted fj → -1 ≤ fj) :
    ∀ fi, (updateBlurred config m msg).state = .selectedItemHighlighted fi → -1 ≤ fi := by
  obtain ⟨st, ai, sel, sk, sm, im⟩ := m
  intro fi hfi
  cases msg <;> simp only [updateBlurred] at hfi <;> (repeat' (split at hfi)) <;>
    (try (exact hprev fi hfi)) <;>
    (try (exact updateKeyboardNavigationForSelections_chip _ _ hprev fi hfi)) <;>
    (try (exact toggleSelected_chip config _ _ hprev fi hfi)) <;>
    (try simp_all) <;>
    (try (exact hfi ▸ jsFindIndex_ge_neg_one _ _)) <;>
    (try (exact hfi ▸ clampIndex_ge_neg_one _ _))

set_option maxHeartbeats 1000000 in
lemma updateFocusedClosed_chip (config : Config ι T) (m : Model T) (msg : Msg T)
    (hprev : ∀ fj, m.state = .selectedItemHighlighted fj → -1 ≤ fj) :
    ∀ fi, (updateFocusedClosed config m msg).state = .selectedItemHighlighted fi → -1 ≤ fi := by
  obtain ⟨st, ai, sel, sk, sm, im⟩ := m
  intro fi hfi
  cases msg <;> simp only [updateFocusedClosed] at hfi <;> (repeat' (split at hfi)) <;>
    (try (exact hprev fi hfi)) <;>
    (try (exact updateKeyboardNavigationForSelections_chip _ _ hprev fi hfi)) <;>
    (try simp_all) <;>
    (try (exact hfi ▸ jsFindIndex_ge_neg_one _ _)) <;>
    (try (exact hfi ▸ clampIndex_ge_neg_one _ _))

set_option maxHeartbeats 1000000 in
lemma updateFocusedOpened_chip (config : Config ι T) (m : Model T) (msg : Msg T)
    (hprev : ∀ fj, m.state = .selectedItemHighlighted fj → -1 ≤ fj) :
    ∀ fi, (updateFocusedOpened config m msg).state = .selectedItemHighlighted fi → -1 ≤ fi := by
  obtain ⟨st, ai, sel, sk, sm, im⟩ := m
  intro fi hfi
  cases msg <;> simp only [updateFocusedOpened] at hfi <;> (repeat' (split at hfi)) <;>
    (try (exact hprev fi hfi)) <;>
    (try (exact updateKeyboardNavigationForSelections_chip _ _ hprev fi hfi)) <;>
    (try (exact toggleSelected_chip config _ _ hprev fi hfi)) <;>
    (try simp_all) <;>
    (try (exact hfi ▸ jsFindIndex_ge_neg_one _ _)) <;>
    (try (exact hfi ▸ clampIndex_ge_neg_one _ _))

set_option maxHeartbeats 1000000 in
lemma updateFocusedOpenedHighlighted_chip (config : Config ι T) (m : Model T) (hi : Int) (msg : Msg T)
    (hprev : ∀ fj, m.state = .selectedItemHighlighted fj → -1 ≤ fj) :
    ∀ fi, (updateFocusedOpenedHighlighted config m hi msg).state = .selectedItemHighlighted fi → -1 ≤ fi := by
  obtain ⟨st, ai, sel, sk, sm, im⟩ := m
  intro fi hfi
  cases msg <;> simp only [updateFocusedOpenedHighlighted] at hfi <;> (repeat' (split at hfi)) <;>
    (try (exact hprev fi hfi)) <;>
    (try (exact updateKeyboardNavigationForSelections_chip _ _ hprev fi hfi)) <;>
    (try simp_all) <;>
    (try (exact hfi ▸ jsFindIndex_ge_neg_one _ _)) <;>
    (try (exact hfi ▸ clampIndex_ge_neg_one _ _))

set_option maxHeartbeats 1000000 in
lemma updateSelectedItemHighlighted_chip (config : Config ι T) (m : Model T) (fj0 : Int) (msg : Msg T)
    (hprev : ∀ fj, m.state = .selectedItemHighlighted fj → -1 ≤ fj) :
    ∀ fi, (updateSelectedItemHighlighted config m fj0 msg).state = .selectedItemHighlighted fi → -1 ≤ fi := by
  obtain ⟨st, ai, sel, sk, sm, im⟩ := m
  intro fi hfi
  cases msg <;> simp only [updateSelectedItemHighlighted.eq_def] at hfi <;> (repeat' (split at hfi)) <;>
    (try (exact hprev fi hfi)) <;>
    (try simp_all) <;>
    (try (exact hfi ▸ jsFindIndex_ge_neg_one _ _)) <;>
    (try (exact hfi ▸ clampIndex_ge_neg_one _ _))

lemma updateModel_chip (config : Config ι T) (m : Model T) (msg : Msg T)
    (hprev : ∀ fj, m.state = .selectedItemHighlighted fj → -1 ≤ fj) :
    ∀ fi, (updateModel config m msg).state = .selectedItemHighlighted fi → -1 ≤ fi := by
  unfold updateModel
  split
  · exact updateBlurred_chip config m msg hprev
  · exact updateFocusedClosed_chip config m msg hprev
  · exact updateFocusedOpened_chip config m msg hprev
  · exact updateFocusedOpenedHighlighted_chip config m _ msg hprev
  · exact updateSelectedItemHighlighted_chip config m _ msg hprev

set_option maxHeartbeats 1000000 in
lemma updateBlurred_not_handled (config : Config ι T) (m : Model T) (msg : Msg T)
    (h : phaseHandles .blurred msg.type = false) :
    updateBlurred config m msg = m := by
  cases msg <;> simp_all [phaseHandles, Msg.type, updateBlurred]

set_option maxHeartbeats 1000000 in
lemma updateFocusedClosed_not_handled (config : Config ι T) (m : Model T) (msg : Msg T)
    (h : phaseHandles .focusedClosed msg.type = false) :
    updateFocusedClosed config m msg = m := by
  cases msg <;> simp_all [phaseHandles, Msg.type, updateFocusedClosed]

set_option maxHeartbeats 1000000 in
lemma updateFocusedOpened_not_handled (config : Config ι T) (m : Model T) (msg : Msg T)
    (h : phaseHandles .focusedOpened msg.type = false) :
    updateFocusedOpened config m msg = m := by
  cases msg <;> simp_all [phaseHandles, Msg.type, updateFocusedOpened]

set_option maxHeartbeats 1000000 in
lemma updateFocusedOpenedHighlighted_not_handled (config : Config ι T) (m : Model T) (hi : Int) (msg : Msg T)
    (h : phaseHandles (.focusedOpenedHighlighted hi) msg.type = false) :
    updateFocusedOpenedHighlighted config m hi msg = m := by
  cases msg <;> simp_all [phaseHandles, Msg.type, updateFocusedOpenedHighlighted]

set_option maxHeartbeats 1000000 in
lemma updateSelectedItemHighlighted_not_handled (config : Config ι T) (m : Model T) (fi : Int) (msg : Msg T)
    (h : phaseHandles (.selectedItemHighlighted fi) msg.type = false) :
    updateSelectedItemHighlighted config m fi msg = m := by
  cases msg <;> simp_all [phaseHandles, Msg.type, updateSelectedItemHighlighted]

lemma updateModel_not_handled (config : Config ι T) (m : Model T) (msg : Msg T)
    (h : phaseHandles m.state msg.type = false) :
    updateModel config m msg = m := by
  obtain ⟨st, ai, sel, sk, sm, im⟩ := m
  simp only at h
  cases st
  · exact updateBlurred_not_handled config _ msg h
  · exact updateFocusedClosed_not_handled config _ msg h
  · exact updateFocusedOpened_not_handled config _ msg h
  · exact updateFocusedOpenedHighlighted_not_handled config _ _ msg h
  · exact updateSelectedItemHighlighted_not_handled config _ _ msg h

set_option maxHeartbeats 1000000 in
lemma updateSetters_nonsetter (m : Model T) (msg : Msg T)
    (h : isSetterMsg msg.type = false) : updateSetters m msg = m := by
  cases msg <;> simp_all [isSetterMsg, Msg.type, updateSetters]

lemma updateSetters_allItems (m : Model T) (msg : Msg T)
    (h : msg.type ≠ .setAllItems) :
    (updateSetters m msg).allItems = m.allItems := by
  cases msg <;> (try simp_all [Msg.type, updateSetters, apply_ite]) <;>
    (try (split <;> rfl))

lemma updateSetters_selectedItems (m : Model T) (msg : Msg T)
    (h : msg.type ≠ .setSelectedItems) :
    (updateSetters m msg).selectedItems = m.selectedItems := by
  cases msg <;> (try simp_all [Msg.type, updateSetters, apply_ite]) <;>
    (try (split <;> rfl))

lemma updateSetters_selectMode (m : Model T) (msg : Msg T)
    (h : msg.type ≠ .setMode) :
    (updateSetters m msg).selectMode = m.selectMode := by
  cases msg <;> (try simp_all [Msg.type, updateSetters, apply_ite]) <;>
    (try (split <;> rfl))

lemma updateSetters_chip (m : Model T) (msg : Msg T)
    (hprev : ∀ fj, m.state = .selectedItemHighlighted fj → -1 ≤ fj) :
    ∀ fi, (updateSetters m msg).state = .selectedItemHighlighted fi → -1 ≤ fi := by
  intro fi hfi
  cases msg <;> simp only [updateSetters] at hfi <;> (repeat' (split at hfi)) <;>
    (try (exact hprev fi hfi)) <;>
    (try simp_all)


lemma update_of_mem (config : Config ι T) (m : Model T) (msg : Msg T)
    (h : msg.type ∈ m.skipOnce) :
    update config m msg =
      ({ m with skipOnce := removeFirst (fun t => decide (t = msg.type)) m.skipOnce }, []) := by
  unfold update
  rw [if_pos h]

lemma update_of_not_mem (config : Config ι T) (m : Model T) (msg : Msg T)
    (h : msg.type ∉ m.skipOnce) :
    update config m msg = updateCore config m msg := by
  unfold update
  rw [if_neg h]

lemma updateCore_eq (config : Config ι T) (m : Model T) (msg : Msg T) :
    updateCore config m msg =
      (scheduleSkipOnce m (updateSetters (updateModel config m msg) msg)
        (computeEffects config m (updateSetters (updateModel config m msg) msg) msg),
       computeEffects config m (updateSetters (updateModel config m msg) msg) msg) := rfl

lemma count_removeFirst (l : List MsgType) (a : MsgType) (h : a ∈ l) :
    (removeFirst (fun t => decide (t = a)) l).count a = l.count a - 1 := by
  induction l with
  | nil => cases h
  | cons x xs ih =>
    by_cases hx : x = a
    · subst hx
      simp [removeFirst, List.count_cons]
    · rcases List.mem_cons.mp h with h1 | h2
      · exact absurd h1.symm hx
      · simp only [removeFirst, decide_eq_true_eq]
        rw [if_neg hx]
        simp [List.count_cons, ih h2, hx]

lemma neg_one_tmod (n : Nat) : (-1 : Int).tmod n = -(1 % (n : Int)) := by
  show (Int.negSucc 0).tmod (Int.ofNat n) = _
  simp [Int.tmod]

lemma circularIndex_succ (j : Int) (n : Nat) (h0 : 0 ≤ j) (hn : j < (n : Int)) :
    circularIndex (j + 1) n = if j + 1 = (n : Int) then 0 else j + 1 := by
  have hn0 : n ≠ 0 := by omega
  unfold circularIndex
  rw [if_neg hn0]
  by_cases hj : j + 1 = (n : Int)
  · rw [if_pos hj, hj]
    rw [Int.tmod_self, zero_add, Int.tmod_self]
  · rw [if_neg hj]
    have h1 : (j + 1).tmod n = j + 1 := Int.tmod_eq_of_lt (by omega) (by omega)
    rw [h1]
    have h2 : (j + 1 + n).tmod n = (j + 1 + n) % (n : Int) :=
      Int.tmod_eq_emod (by omega) (by omega)
    rw [h2]
    have h3 : (j + 1 + (n : Int)) % (n : Int) = (j + 1) % (n : Int) := by
      simp [Int.add_mul_emod_self_left]
    rw [h3]
    exact Int.emod_eq_of_lt (by omega) (by omega)

lemma circularIndex_neg_one (n : Nat) (hn : 0 < n) : circularIndex (-1) n = (n : Int) - 1 := by
  have hn0 : n ≠ 0 := by omega
  unfold circularIndex
  rw [if_neg hn0, neg_one_tmod]
  by_cases h1 : n = 1
  · subst h1
    norm_num
  · have h2 : (1 : Int) % (n : Int) = 1 := Int.emod_eq_of_lt (by omega) (by omega)
    rw [h2]
    have h3 : (-1 + (n : Int)) = (n : Int) - 1 := by ring
    rw [h3]
    exact Int.tmod_eq_of_lt (by omega) (by omega)

lemma isClosed_and_isOpened_self (s : ModelState) : (isClosed s && isOpened s) = false := by
  cases s <;> rfl

lemma isBlurred_and_isFocused_self (s : ModelState) : (isBlurred s && isFocused s) = false := by
  cases s <;> rfl

lemma computeEffects_self_nil (config : Config ι T) (m : Model T) (msg : Msg T)
    (h1 : msg.type ≠ .pressedInput)
    (h2 : msg.type ≠ .pressedUnselectAllButton)
    (h3 : isHighlighted m.state = true → msg.type ≠ .pressedVerticalArrowKey)
    (h4 : isSelectedItemHighlighted m.state = false) :
    computeEffects config m m msg = [] := by
  unfold computeEffects
  rw [isClosed_and_isOpened_self]
  cases hst : m.state <;> simp_all [isSelectedItemHighlighted, isHighlighted]

lemma scheduleSkipOnce_self (m : Model T)
    (h4 : isSelectedItemHighlighted m.state = false) :
    scheduleSkipOnce m m [] = m := by
  have hco : ¬ (isClosed m.state = true ∧ isOpened m.state = true) := by
    intro hand
    have hfalse := isClosed_and_isOpened_self m.state
    rw [hand.1, hand.2] at hfalse
    simp at hfalse
  have hbf : ¬ (isBlurred m.state = true ∧ isFocused m.state = true) := by
    intro hand
    have hfalse := isBlurred_and_isFocused_self m.state
    rw [hand.1, hand.2] at hfalse
    simp at hfalse
  unfold scheduleSkipOnce skipOnceRuleOpenedScroll skipOnceRuleOpened skipOnceRuleScroll
    skipOnceRuleFocused
  simp [hasScrollEffect, h4, hco, hbf]

lemma phaseHandles_unselect_all (s : ModelState) :
    phaseHandles s .pressedUnselectAllButton = true := by
  cases s <;> rfl

lemma phaseHandles_vertical_highlighted (hi : Int) :
    phaseHandles (.focusedOpenedHighlighted hi) .pressedVerticalArrowKey = true := rfl

lemma phaseHandles_setter_false (s : ModelState) (t : MsgType)
    (h : isSetterMsg t = true) : phaseHandles s t = false := by
  cases t <;> simp_all [isSetterMsg] <;> cases s <;> rfl

lemma scheduleSkipOnce_scroll_cases (old out : Model T) (effects : List (Effect T))
    (h : hasScrollEffect effects = true) :
    (scheduleSkipOnce old out effects).skipOnce = [MsgType.hoveredOverItem] ∨
    (scheduleSkipOnce old out effects).skipOnce =
      [MsgType.hoveredOverItem, MsgType.pressedInput] := by
  unfold scheduleSkipOnce skipOnceRuleFocused skipOnceRuleScroll
  rw [if_pos h]
  split <;> simp

lemma toSelectedItem_congr (m m' : Model T)
    (h : m'.selectedItems = m.selectedItems) :
    toSelectedItem m' = toSelectedItem m := by
  unfold toSelectedItem
  rw [h]

lemma toCurrentInputValue_eq_of (config : Config ι T) (m m' : Model T)
    (hsel : isSelected m = true)
    (h1 : m'.state = m.state) (h2 : m'.selectedItems = m.selectedItems)
    (h3 : m'.selectMode = m.selectMode) (h4 : m'.inputMode = m.inputMode) :
    toCurrentInputValue config m' = toCurrentInputValue config m := by
  obtain ⟨st, ai, sel, sk, sm, im⟩ := m
  obtain ⟨st', ai', sel', sk', sm', im'⟩ := m'
  simp only at h1 h2 h3 h4 hsel
  subst h1; subst h2; subst h3; subst h4
  cases sel' with
  | nil => simp [isSelected, isNonEmpty] at hsel
  | cons x rest =>
    cases im' <;> cases sm' <;> cases st' <;>
      simp [toCurrentInputValue, modelToInputValue, toSearchValue, isSelected,
        isNonEmpty, isSingle, isMulti]

lemma update_selectMode (config : Config ι T) (m : Model T) (msg : Msg T)
    (h : msg.type ≠ .setMode) :
    (update config m msg).1.selectMode = m.selectMode := by
  by_cases hmem : msg.type ∈ m.skipOnce
  · rw [update_of_mem config m msg hmem]
  · rw [update_of_not_mem config m msg hmem, updateCore_eq]
    dsimp only
    rw [scheduleSkipOnce_selectMode, updateSetters_selectMode _ _ h,
      updateModel_selectMode]

end Lemmas

/-! Settling the claims. -/

section Claims

set_option linter.unusedSectionVars false

variable {ι T : Type} [DecidableEq ι]

/-- C5: if the incoming event's type occurs in `model.skipOnce`, `update`
returns no effects and the input model with exactly the first occurrence of
that type removed from `skipOnce` (one occurrence consumed, count drops by
one); an event whose type is not in `skipOnce` is processed by the normal
pipeline. -/
theorem skipOnce_swallows_event (config : Config ι T) (m : Model T) (msg : Msg T)
    (h : msg.type ∈ m.skipOnce) :
    update config m msg =
      ({ m with skipOnce := removeFirst (fun t => decide (t = msg.type)) m.skipOnce }, []) ∧
    (update config m msg).1.skipOnce.count msg.type = m.skipOnce.count msg.type - 1 ∧
    ∀ m₂ : Model T, msg.type ∉ m₂.skipOnce → update config m₂ msg = updateCore config m₂ msg := by
  refine ⟨update_of_mem config m msg h, ?_, fun m₂ h₂ => update_of_not_mem config m₂ msg h₂⟩
  rw [update_of_mem config m msg h]
  exact count_removeFirst m.skipOnce msg.type h

/-- Witness for C5 at a concrete input: a scheduled `hovered-over-item`
suppression swallows the next `hovered-over-item` event. -/
theorem skipOnce_swallows_event_witness :
    update sampleConfig { openedNoSelection with skipOnce := [MsgType.hoveredOverItem] }
        (.hoveredOverItem 1) =
      ({ openedNoSelection with skipOnce := [] }, []) := by
  have h := (skipOnce_swallows_event sampleConfig
    { openedNoSelection with skipOnce := [MsgType.hoveredOverItem] }
    (.hoveredOverItem 1) (by decide)).1
  simpa [removeFirst] using h

/-- C6: whenever an `update` call returns at least one
`scroll-item-into-view` effect, the returned model's `skipOnce` contains
exactly one occurrence of `hovered-over-item` (the last scheduling rule
overwrites any previously scheduled suppressions). -/
theorem scroll_effect_schedules_single_suppression (config : Config ι T)
    (m : Model T) (msg : Msg T)
    (h : hasScrollEffect (update config m msg).2 = true) :
    ((update config m msg).1.skipOnce).count MsgType.hoveredOverItem = 1 := by
  by_cases hmem : msg.type ∈ m.skipOnce
  · rw [update_of_mem config m msg hmem] at h
    simp [hasScrollEffect] at h
  · rw [update_of_not_mem config m msg hmem, updateCore_eq] at h ⊢
    dsimp only at h ⊢
    rcases scheduleSkipOnce_scroll_cases m _ _ h with hc | hc <;> rw [hc] <;> decide

/-- Witness for C6 at a concrete input: pressing the input with a selection
present opens the dropdown and emits a scroll effect. -/
theorem scroll_effect_schedules_single_suppression_witness :
    ((update sampleConfig closedWithSelection .pressedInput).1.skipOnce).count
      MsgType.hoveredOverItem = 1 :=
  scroll_effect_schedules_single_suppression sampleConfig closedWithSelection
    .pressedInput (by decide)

/-- C10: any event other than `set-all-items` leaves `allItems` unchanged:
only that setter ever changes the candidate pool. -/
theorem only_set_all_items_changes_allItems (config : Config ι T)
    (m : Model T) (msg : Msg T) (h : msg.type ≠ .setAllItems) :
    (update config m msg).1.allItems = m.allItems := by
  by_cases hmem : msg.type ∈ m.skipOnce
  · rw [update_of_mem config m msg hmem]
  · rw [update_of_not_mem config m msg hmem, updateCore_eq]
    dsimp only
    rw [scheduleSkipOnce_allItems, updateSetters_allItems _ _ h,
      updateModel_allItems]

/-- Witness for C10 at a concrete input: `set-selected-items` does not touch
`allItems`. -/
theorem only_set_all_items_changes_allItems_witness :
    (update sampleConfig closedWithSelection (.setSelectedItems [5])).1.allItems
      = closedWithSelection.allItems :=
  only_set_all_items_changes_allItems sampleConfig closedWithSelection
    (.setSelectedItems [5]) (by decide)

/-- Counterexample to C3 as stated: with item 0 selected and search text
`"zero"`, dispatching `set-all-items([])` leaves `toSelectedItem = some 0`
(not `null`) and `toCurrentInputValue = "zero"` (not `""`): the selection is
not invalidated. -/
theorem set_all_items_counterexample :
    isSelected selectedWithText = true ∧
    toSelectedItem (update sampleConfig selectedWithText (.setAllItems [])).1 = some 0 ∧
    toCurrentInputValue sampleConfig
      (update sampleConfig selectedWithText (.setAllItems [])).1 = "zero" := by
  decide

/-- C3 amended: `set-all-items` only replaces `allItems`; the selection is
untouched, so `toSelectedItem` is unchanged (in particular not `null` when a
selection exists) and `toCurrentInputValue` is unchanged as well. -/
theorem set_all_items_preserves_selection (config : Config ι T) (m : Model T)
    (newItems : List T)
    (hskip : MsgType.setAllItems ∉ m.skipOnce) (hsel : isSelected m = true) :
    (update config m (.setAllItems newItems)).1.selectedItems = m.selectedItems ∧
    toSelectedItem (update config m (.setAllItems newItems)).1 = toSelectedItem m ∧
    toSelectedItem (update config m (.setAllItems newItems)).1 ≠ none ∧
    toCurrentInputValue config (update config m (.setAllItems newItems)).1 =
      toCurrentInputValue config m := by
  have hnh : updateModel config m (Msg.setAllItems newItems) = m :=
    updateModel_not_handled config m _ (phaseHandles_setter_false m.state _ rfl)
  rw [update_of_not_mem config m (Msg.setAllItems newItems) hskip, updateCore_eq]
  dsimp only
  rw [hnh]
  have hset : updateSetters m (Msg.setAllItems newItems) = { m with allItems := newItems } := rfl
  rw [hset]
  have h1 : (scheduleSkipOnce m { m with allItems := newItems }
      (computeEffects config m { m with allItems := newItems }
        (Msg.setAllItems newItems))).selectedItems = m.selectedItems := by
    rw [scheduleSkipOnce_selectedItems]
  have hsome : toSelectedItem m ≠ none := by
    unfold toSelectedItem
    cases hc : m.selectedItems with
    | nil => simp [isSelected, isNonEmpty, hc] at hsel
    | cons x xs => simp
  refine ⟨h1, toSelectedItem_congr _ _ h1, ?_, ?_⟩
  · rw [toSelectedItem_congr _ _ h1]
    exact hsome
  · exact toCurrentInputValue_eq_of config m _ hsel
      (by rw [scheduleSkipOnce_state]) h1
      (by rw [scheduleSkipOnce_selectMode]) (by rw [scheduleSkipOnce_inputMode])

/-- Witness for C3 amended at a concrete input. -/
theorem set_all_items_preserves_selection_witness :
    (update sampleConfig selectedWithText (.setAllItems [])).1.selectedItems =
      selectedWithText.selectedItems ∧
    toSelectedItem (update sampleConfig selectedWithText (.setAllItems [])).1 =
      toSelectedItem selectedWithText ∧
    toSelectedItem (update sampleConfig selectedWithText (.setAllItems [])).1 ≠ none ∧
    toCurrentInputValue sampleConfig
        (update sampleConfig selectedWithText (.setAllItems [])).1 =
      toCurrentInputValue sampleConfig selectedWithText :=
  set_all_items_preserves_selection sampleConfig selectedWithText []
    (by decide) (by decide)

/-- Counterexample to C2 as stated: from a single-select `init`, the
`set-selected-items` setter installs a two-element selection while the mode
stays single-select. -/
theorem single_select_cardinality_counterexample :
    (init [0, 1] none none : Model Nat).selectMode = .singleSelect ∧
    (update sampleConfig (init [0, 1] none none) (.setSelectedItems [0, 1])).1.selectMode
      = .singleSelect ∧
    (update sampleConfig (init [0, 1] none none)
        (.setSelectedItems [0, 1])).1.selectedItems.length = 2 := by
  decide

/-- C2 amended: for every model reachable from `init` by update sequences
avoiding the `set-selected-items` and `set-mode` setters, single-select mode
implies at most one selected item. -/
theorem single_select_cardinality_invariant (config : Config ι T) (m : Model T)
    (h : ReachableNoSelectionSetters config m) (hm : m.selectMode = .singleSelect) :
    m.selectedItems.length ≤ 1 := by
  revert hm
  induction h with
  | init a smo imo =>
    intro _
    simp [Combobox.init]
  | step m' msg hsel hmode hr ih =>
    intro hm
    have hmode' : m'.selectMode = .singleSelect := by
      rw [← update_selectMode config m' msg hmode]
      exact hm
    have hlen := ih hmode'
    by_cases hmem : msg.type ∈ m'.skipOnce
    · rw [update_of_mem config m' msg hmem]
      exact hlen
    · rw [update_of_not_mem config m' msg hmem, updateCore_eq]
      dsimp only
      rw [scheduleSkipOnce_selectedItems, updateSetters_selectedItems _ _ hsel]
      exact updateModel_len_single config m' msg hmode' hlen

/-- Witness for C2 amended at a concrete reachable model. -/
theorem single_select_cardinality_invariant_witness :
    (init [0, 1] none none : Model Nat).selectedItems.length ≤ 1 :=
  single_select_cardinality_invariant sampleConfig _
    (ReachableNoSelectionSetters.init [0, 1] none none) (by decide)

/-- Counterexample to C9 as stated: from `init` with no items, dispatching
`focused-selected-item(5)` reaches the chip phase with `focusedIndex = -1`
while `selectedItems` is empty, so `focusedIndex` is not a valid index. -/
theorem chip_focus_index_counterexample :
    (update sampleConfig (init ([] : List Nat) none none)
        (.focusedSelectedItem 5)).1.state = .selectedItemHighlighted (-1) ∧
    (update sampleConfig (init ([] : List Nat) none none)
        (.focusedSelectedItem 5)).1.selectedItems = [] := by
  decide

/-- C9 amended: for every reachable model in the chip phase, `focusedIndex`
is at least `-1` (the `findIndex` sentinel); validity as an index into
`selectedItems` is not guaranteed. -/
theorem chip_focus_index_lower_bound (config : Config ι T) (m : Model T)
    (h : Reachable config m) :
    ∀ fi, m.state = .selectedItemHighlighted fi → -1 ≤ fi := by
  induction h with
  | init a smo imo =>
    intro fi hfi
    simp [Combobox.init] at hfi
  | step m' msg hr ih =>
    intro fi hfi
    by_cases hmem : msg.type ∈ m'.skipOnce
    · rw [update_of_mem config m' msg hmem] at hfi
      exact ih fi hfi
    · rw [update_of_not_mem config m' msg hmem, updateCore_eq] at hfi
      dsimp only at hfi
      rw [scheduleSkipOnce_state] at hfi
      exact updateSetters_chip _ msg (updateModel_chip config m' msg ih) fi hfi

/-- Witness for C9 amended, applied at the reachable chip-phase model with
`focusedIndex = -1`. -/
theorem chip_focus_index_lower_bound_witness : (-1 : Int) ≤ -1 :=
  chip_focus_index_lower_bound sampleConfig _
    (Reachable.step (init ([] : List Nat) none none) (.focusedSelectedItem 5)
      (Reachable.init ([] : List Nat) none none)) (-1) (by decide)

/-- Counterexample to C4 as stated: in phase `selected-item-highlighted`,
dispatching `hovered-over-item` (absent from that phase's transition table,
not a setter, not suppressed) is not a no-op: the result re-emits a
`focus-selected-item` effect and appends a `pressed-input` suppression. -/
theorem unhandled_event_noop_counterexample :
    phaseHandles chipFocused.state MsgType.hoveredOverItem = false ∧
    isSetterMsg MsgType.hoveredOverItem = false ∧
    chipFocused.skipOnce = [] ∧
    update sampleConfig chipFocused (.hoveredOverItem 0) ≠ (chipFocused, []) := by
  decide

/-- C4 amended: an event whose type is absent from the current phase's
transition table is an exact no-op (same model, no effects), provided it is
not a setter, not in `skipOnce`, not `pressed-input` (which always emits
`focus-input`), and the phase is not `selected-item-highlighted` (which
re-emits `focus-selected-item` and schedules a `pressed-input`
suppression). -/
theorem unhandled_event_is_noop (config : Config ι T) (m : Model T) (msg : Msg T)
    (hph : phaseHandles m.state msg.type = false)
    (hsetter : isSetterMsg msg.type = false)
    (hskip : msg.type ∉ m.skipOnce)
    (hpi : msg.type ≠ .pressedInput)
    (hchip : isSelectedItemHighlighted m.state = false) :
    update config m msg = (m, []) := by
  have hua : msg.type ≠ .pressedUnselectAllButton := by
    intro he
    rw [he, phaseHandles_unselect_all] at hph
    cases hph
  have hvert : isHighlighted m.state = true → msg.type ≠ .pressedVerticalArrowKey := by
    intro hhi he
    rcases hst : m.state with _ | _ | _ | hi | fi
    · rw [hst] at hhi; simp [isHighlighted] at hhi
    · rw [hst] at hhi; simp [isHighlighted] at hhi
    · rw [hst] at hhi; simp [isHighlighted] at hhi
    · rw [he, hst, phaseHandles_vertical_highlighted] at hph
      cases hph
    · rw [hst] at hhi; simp [isHighlighted] at hhi
  have hm : updateModel config m msg = m := updateModel_not_handled config m msg hph
  have hs : updateSetters m msg = m := updateSetters_nonsetter m msg hsetter
  have heff : computeEffects config m m msg = [] :=
    computeEffects_self_nil config m msg hpi hua hvert hchip
  rw [update_of_not_mem config m msg hskip, updateCore_eq, hm, hs, heff,
    scheduleSkipOnce_self m hchip]

/-- Witness for C4 amended at the claim's own example: `pressed-enter-key`
in phase `blurred` is an exact no-op. -/
theorem unhandled_event_is_noop_witness :
    update sampleConfig (init [1, 2, 3] none none) .pressedEnterKey =
      (init [1, 2, 3] none none, []) :=
  unhandled_event_is_noop sampleConfig (init [1, 2, 3] none none) .pressedEnterKey
    (by decide) (by decide) (by decide) (by decide) (by decide)

/-- Counterexample to C8 as stated: in single-select mode,
`pressed-vertical-arrow-key` from the closed focused phase opens the
dropdown into `focused__opened` without entering the highlighted phase. -/
theorem vertical_arrow_from_closed_counterexample :
    closedWithSelection.state = .focusedClosed ∧
    closedWithSelection.selectMode = .singleSelect ∧
    isOpened (update sampleConfig closedWithSelection
      (.pressedVerticalArrowKey true)).1.state = true ∧
    isHighlighted (update sampleConfig closedWithSelection
      (.pressedVerticalArrowKey true)).1.state = false := by
  decide

/-- C8 amended: from a closed focused phase (`focused__closed` or
`selected-item-highlighted`), `pressed-vertical-arrow-key` opens the
dropdown; in multi-select mode it enters `focused__opened__highlighted`
seeded at the selection's visible position (else 0, via JS truthiness), but
in single-select mode it enters the unhighlighted `focused__opened`. -/
theorem vertical_arrow_from_closed_phase (config : Config ι T) (m : Model T)
    (key : Bool)
    (hstate : m.state = .focusedClosed ∨
      ∃ fi, m.state = .selectedItemHighlighted fi)
    (hskip : MsgType.pressedVerticalArrowKey ∉ m.skipOnce) :
    (isSingle m.selectMode = true →
      (update config m (.pressedVerticalArrowKey key)).1.state = .focusedOpened) ∧
    (isMulti m.selectMode = true →
      (update config m (.pressedVerticalArrowKey key)).1.state =
        .focusedOpenedHighlighted (jsOrZero (toSelectedItemIndex config m))) := by
  rw [update_of_not_mem config m (.pressedVerticalArrowKey key) hskip, updateCore_eq]
  dsimp only
  rw [scheduleSkipOnce_state,
    updateSetters_nonsetter (updateModel config m (.pressedVerticalArrowKey key))
      (.pressedVerticalArrowKey key) rfl]
  have harm : updateModel config m (.pressedVerticalArrowKey key) =
      (if isSingle m.selectMode then
        resetInputValue config { m with state := .focusedOpened }
      else
        resetInputValue config
          { m with state := .focusedOpenedHighlighted (jsOrZero (toSelectedItemIndex config m)) }) := by
    rcases hstate with h | ⟨fi, h⟩ <;>
      (unfold updateModel; rw [h]) <;>
      simp only [updateFocusedClosed, updateSelectedItemHighlighted]
  rw [harm]
  constructor <;> intro hmode
  · rw [if_pos hmode, resetInputValue_state]
  · have hs : isSingle m.selectMode = false := by
      cases hsm : m.selectMode
      · rw [hsm] at hmode; simp [isMulti] at hmode
      · rfl
    rw [if_neg (by rw [hs]; exact Bool.false_ne_true), resetInputValue_state]

/-- Witness for C8 amended at a concrete multi-select input. -/
theorem vertical_arrow_from_closed_phase_witness :
    (update sampleConfig closedWithSelectionMulti
        (.pressedVerticalArrowKey true)).1.state =
      .focusedOpenedHighlighted
        (jsOrZero (toSelectedItemIndex sampleConfig closedWithSelectionMulti)) :=
  (vertical_arrow_from_closed_phase sampleConfig closedWithSelectionMulti true
    (Or.inl (by decide)) (by decide)).2 (by decide)

/-- C1 (code bug): evaluating the code at the failing input.  In phase
`focused__opened` with an empty selection, `pressed-item` on a non-empty
item is a no-op: `toggleSelected` returns early because nothing is selected,
so the phase stays `focused__opened` and nothing gets selected, instead of
selecting the item and closing as Scenario 2 and the repository's own test
("selects an item on press") require. -/
theorem pressed_item_with_empty_selection_is_noop :
    openedNoSelection.state = .focusedOpened ∧
    openedNoSelection.selectedItems = [] ∧
    sampleConfig.isEmptyItem 2 = false ∧
    update sampleConfig openedNoSelection (.pressedItem 2) = (openedNoSelection, []) ∧
    toCurrentInputValue sampleConfig
      (update sampleConfig openedNoSelection (.pressedItem 2)).1 = "" := by
  decide

lemma circularIndex_zero_len (i : Int) : circularIndex i 0 = 0 := rfl

lemma jsGetElem_isSome {α : Type} (l : List α) (k : Int)
    (h0 : 0 ≤ k) (hlt : k < (l.length : Int)) : ∃ x, jsGetElem l k = some x := by
  unfold jsGetElem
  rw [if_neg (by omega)]
  have hk : k.toNat < l.length := by omega
  exact ⟨l[k.toNat], List.getElem?_eq_getElem hk⟩

set_option maxHeartbeats 1000000 in
lemma vertical_step_aux (config : Config ι T) (base : Model T) (j : Int)
    (sk : List MsgType)
    (hvis : ∀ j' sk', toVisibleItems config
        { base with state := .focusedOpenedHighlighted j', skipOnce := sk' } =
      toVisibleItems config base)
    (hskip : MsgType.pressedVerticalArrowKey ∉ sk)
    (h0 : 0 ≤ j) (hlt : j < ((toVisibleItems config base).length : Int)) :
    (update config { base with state := .focusedOpenedHighlighted j, skipOnce := sk }
        (.pressedVerticalArrowKey true)).1 =
      { base with
          state := .focusedOpenedHighlighted (circularIndex (j + 1) (toVisibleItems config base).length)
          skipOnce := [MsgType.hoveredOverItem] } := by
  have hn0 : 0 < (toVisibleItems config base).length := by omega
  have hb : 0 ≤ circularIndex (j + 1) (toVisibleItems config base).length ∧
      circularIndex (j + 1) (toVisibleItems config base).length <
        ((toVisibleItems config base).length : Int) := by
    rw [circularIndex_succ j _ h0 hlt]
    constructor <;> (split <;> omega)
  obtain ⟨x, hx⟩ := jsGetElem_isSome (toVisibleItems config base)
    (circularIndex (j + 1) (toVisibleItems config base).length) hb.1 hb.2
  have hskip' : (Msg.pressedVerticalArrowKey true : Msg T).type ∉
      ({ base with state := .focusedOpenedHighlighted j, skipOnce := sk } : Model T).skipOnce :=
    hskip
  rw [update_of_not_mem _ _ _ hskip', updateCore_eq]
  dsimp only
  simp only [updateModel, updateFocusedOpenedHighlighted]
  rw [hvis j sk]
  simp only [if_true]
  rw [updateSetters_nonsetter _ (Msg.pressedVerticalArrowKey true) rfl]
  simp only [computeEffects, scheduleSkipOnce, skipOnceRuleOpenedScroll,
    skipOnceRuleOpened, skipOnceRuleScroll, skipOnceRuleFocused, hasScrollEffect,
    isClosed, isOpened, isBlurred, isFocused, isSelectedItemHighlighted, Msg.type]
  rw [hvis _ sk]
  simp [hx]

set_option maxHeartbeats 1000000 in
lemma iterate_down_aux (config : Config ι T) (base : Model T)
    (hstate : base.state = .focusedOpenedHighlighted 0)
    (hskip : MsgType.pressedVerticalArrowKey ∉ base.skipOnce)
    (hvis : ∀ j' sk', toVisibleItems config
        { base with state := .focusedOpenedHighlighted j', skipOnce := sk' } =
      toVisibleItems config base)
    (hn : 0 < (toVisibleItems config base).length) :
    ∀ k, k ≤ (toVisibleItems config base).length →
      (fun mm => (update config mm (.pressedVerticalArrowKey true)).1)^[k] base =
        if k = 0 then base
        else { base with
            state := .focusedOpenedHighlighted
              (if k = (toVisibleItems config base).length then 0 else (k : Int))
            skipOnce := [MsgType.hoveredOverItem] } := by
  intro k
  induction k with
  | zero => intro _; simp
  | succ k ih =>
    intro hk
    rw [Function.iterate_succ_apply']
    by_cases hk0 : k = 0
    · subst hk0
      simp only [Function.iterate_zero_apply]
      have hbase : base =
          { base with state := .focusedOpenedHighlighted 0, skipOnce := base.skipOnce } := by
        rw [← hstate]
      conv_lhs => rw [hbase]
      rw [vertical_step_aux config base 0 base.skipOnce hvis hskip (le_refl 0)
        (by exact_mod_cast hn)]
      rw [circularIndex_succ 0 _ (le_refl 0) (by exact_mod_cast hn)]
      have hne0 : ¬ (0 + 1 = 0) := by omega
      by_cases h1 : 0 + 1 = (toVisibleItems config base).length
      · have h1i : ((0 : Int) + 1 = ((toVisibleItems config base).length : Int)) := by
          exact_mod_cast h1
        simp only [if_neg hne0, if_pos h1, if_pos h1i]
      · have h1i : ¬ ((0 : Int) + 1 = ((toVisibleItems config base).length : Int)) := by
          exact_mod_cast h1
        simp only [if_neg hne0, if_neg h1, if_neg h1i]
        norm_num
    · have hklt : k < (toVisibleItems config base).length := by omega
      have hkne : ¬ k = (toVisibleItems config base).length := by omega
      rw [ih (by omega), if_neg hk0, if_neg hkne]
      have h0k : (0 : Int) ≤ (k : Int) := by positivity
      have hklti : ((k : Int) < ((toVisibleItems config base).length : Int)) := by
        exact_mod_cast hklt
      rw [vertical_step_aux config base (k : Int) [MsgType.hoveredOverItem] hvis
        (by decide) h0k hklti]
      rw [circularIndex_succ (k : Int) _ h0k hklti]
      have hne0 : ¬ (k + 1 = 0) := by omega
      by_cases hEq : k + 1 = (toVisibleItems config base).length
      · have hEqi : ((k : Int) + 1 = ((toVisibleItems config base).length : Int)) := by
          exact_mod_cast hEq
        simp only [if_neg hne0, if_pos hEq, if_pos hEqi]
      · have hEqi : ¬ ((k : Int) + 1 = ((toVisibleItems config base).length : Int)) := by
          exact_mod_cast hEq
        simp only [if_neg hne0, if_neg hEq, if_neg hEqi]
        push_cast
        rfl

/-- C7: in phase `focused__opened__highlighted` with `n` visible items (the
hypothesis `hvis` pins the visible projection across highlight/suppression
changes, i.e. "n fixed across the events"), `pressed-vertical-arrow-key`
moves the highlight index by `+1` (down) or `-1` (up) through
`circularIndex` (circular wraparound, index 0 when `n = 0`); consequently
`n` downs from index 0 return to index 0, and one up from index 0 yields
`n - 1`. -/
theorem vertical_arrow_wraparound (config : Config ι T) (m : Model T) (i : Int)
    (hstate : m.state = .focusedOpenedHighlighted i)
    (hskip : MsgType.pressedVerticalArrowKey ∉ m.skipOnce)
    (hvis : ∀ j sk, toVisibleItems config
        { m with state := .focusedOpenedHighlighted j, skipOnce := sk } =
      toVisibleItems config m) :
    (∀ key : Bool,
      (update config m (.pressedVerticalArrowKey key)).1.state =
        .focusedOpenedHighlighted
          (circularIndex (i + (if key then 1 else -1))
            (toVisibleItems config m).length)) ∧
    ((toVisibleItems config m).length = 0 → ∀ key : Bool,
      (update config m (.pressedVerticalArrowKey key)).1.state =
        .focusedOpenedHighlighted 0) ∧
    (i = 0 →
      ((fun mm => (update config mm (.pressedVerticalArrowKey true)).1)^[
          (toVisibleItems config m).length] m).state = .focusedOpenedHighlighted 0) ∧
    (i = 0 → 0 < (toVisibleItems config m).length →
      (update config m (.pressedVerticalArrowKey false)).1.state =
        .focusedOpenedHighlighted (((toVisibleItems config m).length : Int) - 1)) := by
  have hA : ∀ key : Bool,
      (update config m (.pressedVerticalArrowKey key)).1.state =
        .focusedOpenedHighlighted
          (circularIndex (i + (if key then 1 else -1))
            (toVisibleItems config m).length) := by
    intro key
    rw [update_of_not_mem config m (.pressedVerticalArrowKey key) hskip, updateCore_eq]
    dsimp only
    rw [scheduleSkipOnce_state,
      updateSetters_nonsetter _ (Msg.pressedVerticalArrowKey key) rfl]
    unfold updateModel
    rw [hstate]
    dsimp only
    simp only [updateFocusedOpenedHighlighted]
  refine ⟨hA, ?_, ?_, ?_⟩
  · intro hzero key
    rw [hA key, hzero, circularIndex_zero_len]
  · intro hi0
    subst hi0
    by_cases hn : (toVisibleItems config m).length = 0
    · rw [hn]
      simpa using hstate
    · have hn' : 0 < (toVisibleItems config m).length := Nat.pos_of_ne_zero hn
      rw [iterate_down_aux config m hstate hskip hvis hn' _ (le_refl _),
        if_neg hn, if_pos rfl]
  · intro hi0 hn
    subst hi0
    rw [hA false]
    norm_num
    rw [circularIndex_neg_one _ hn]

/-- Witness for C7 at a concrete input: three visible items in select-only
mode; three downs from index 0 return to index 0, and one up from index 0
lands on index 2. -/
theorem vertical_arrow_wraparound_witness :
    ((fun mm => (update sampleConfig mm (.pressedVerticalArrowKey true)).1)^[3]
      highlightedSelectOnly).state = .focusedOpenedHighlighted 0 ∧
    (update sampleConfig highlightedSelectOnly
      (.pressedVerticalArrowKey false)).1.state = .focusedOpenedHighlighted 2 := by
  have h := vertical_arrow_wraparound sampleConfig highlightedSelectOnly 0 rfl
    (by decide) (fun j sk => rfl)
  refine ⟨h.2.2.1 rfl, ?_⟩
  have h2 := h.2.2.2 rfl (by decide)
  simpa using h2

end Claims

end Combobox
